import Mathlib

/-!
# AziAudio: the AI register bridge of `src/AziAudio/main.cpp`

A shallow embedding of the plugin entry points of `main.cpp`.  The process-wide
globals of the translation unit (`snd`, `ai_delayed_carry`, `bBackendChanged`,
`first_time`, `Dacrate`, `AudioInfo`) together with the two `Configuration`
members the file reads and writes make up one `State` record; every entry point
is a function on that record.  Calls that leave the translation unit (methods of
the sound driver, the driver factory, `delete`, `HLEStart`) are appended to
`State.trace` in program order.

Conventions.
* `u32` values are natural numbers; where the source adds two `u32` values the
  sum is reduced modulo `2 ^ 32`.
* The three hardware registers are reached in the source through pointers held
  in `AudioInfo`; the record `AUDIO_INFO` holds the values currently stored
  behind those pointers.  `State` and the entry points on `State` describe the
  program once `InitiateAudio` has stored a register view.  `AudioInfo` is a
  zero-initialised global, so before the first `InitiateAudio` its register
  pointers are `NULL`; `Plugin` adds that to the state, and the entry points
  on `Plugin` fail where the source goes through a `NULL` register pointer.
* Answers of external code (the value returned by `AI_ReadLength`, whether
  `CreateSoundDriver` yields a driver, what `LoadSettings` and the
  configuration dialog leave as the configured driver) are explicit arguments.
* `DEBUG_OUTPUT` lines and the `_DEBUG` message box change no program state and
  are left out.
-/

namespace AziAudio

/-! ## Data model -/

/-- Modelled from the spec: the backend selector (`SoundDriverType` of
`SoundDriverFactory.h`, not under src/), an enumerated identifier; its values are
coded as natural numbers. -/
abbrev SoundDriverType := Nat

/-- A live `SoundDriverInterface` object: `id` stands for the identity of the
heap object `snd` points to, `kind` is the selector handed to
`CreateSoundDriver` when it was made. -/
structure Driver where
  id : Nat
  kind : SoundDriverType
  deriving DecidableEq, Repr

/-- The calls that leave `main.cpp`, in the order the program makes them. -/
inductive Call where
  | CreateSoundDriver (sel : SoundDriverType) (result : Option Driver)
  | Delete (d : Driver)
  | AI_Startup (d : Driver)
  | AI_Shutdown (d : Driver)
  | AI_ResetAudio (d : Driver)
  | AI_SetFrequency (d : Driver) (Frequency : Nat)
  | AI_LenChanged (d : Driver) (address : Nat) (length : Nat)
  | AI_ReadLength (d : Driver)
  | AI_Update (d : Driver) (Wait : Bool)
  | HLEStart
  deriving DecidableEq, Repr

/-- The method calls made on a driver object (`snd->...`). -/
def Call.isBackendCall : Call → Bool
  | .AI_Startup _ => true
  | .AI_Shutdown _ => true
  | .AI_ResetAudio _ => true
  | .AI_SetFrequency _ _ => true
  | .AI_LenChanged _ _ _ => true
  | .AI_ReadLength _ => true
  | .AI_Update _ _ => true
  | _ => false

/-- The `AI_SetFrequency` calls. -/
def Call.isSetFrequency : Call → Bool
  | .AI_SetFrequency _ _ => true
  | _ => false

/-- The register part of `AUDIO_INFO`: the values behind `AI_DRAM_ADDR_REG`,
`AI_LEN_REG` and `AI_DACRATE_REG`. -/
structure AUDIO_INFO where
  AI_DRAM_ADDR_REG : Nat
  AI_LEN_REG : Nat
  AI_DACRATE_REG : Nat
  deriving DecidableEq, Repr

/-- The globals of `main.cpp` and the `Configuration` members it uses. -/
structure State where
  snd : Option Driver
  ai_delayed_carry : Bool
  bBackendChanged : Bool
  first_time : Bool
  Dacrate : Nat
  AudioInfo : AUDIO_INFO
  RomRunning : Bool
  configDriver : SoundDriverType
  nextId : Nat
  trace : List Call
  deriving DecidableEq, Repr

/-- The globals with their load-time values (`snd = NULL`,
`bBackendChanged = false`, `first_time = true`, `Dacrate = 0`, zero-initialised
`ai_delayed_carry`), together with register values `regs`.  At load time itself
the register pointers are `NULL` (see `Plugin.atLoad`); `regs` are the values
the registers show once a view is stored. -/
def State.init (regs : AUDIO_INFO) (driver : SoundDriverType) : State :=
  { snd := none, ai_delayed_carry := false, bBackendChanged := false,
    first_time := true, Dacrate := 0, AudioInfo := regs, RomRunning := false,
    configDriver := driver, nextId := 0, trace := [] }

/-- Ways an entry point can fail to return. -/
inductive Fault where
  | assertion
  | nullDereference
  deriving DecidableEq, Repr

/-- The calls made between state `s` and the later state `s'`. -/
def issued (s s' : State) : List Call :=
  s'.trace.drop s.trace.length

/-- The emulator core stores new values in the three registers. -/
def hostWrite (regs : AUDIO_INFO) (s : State) : State :=
  { s with AudioInfo := regs }

/-! ## External collaborators -/

/-- Embeds `SoundDriverFactory::CreateSoundDriver(sel)`: yields a fresh driver object or
`NULL`; `created` says which. -/
def CreateSoundDriver (sel : SoundDriverType) (created : Bool) (s : State) :
    Option Driver × State :=
  let r : Option Driver := if created then some { id := s.nextId, kind := sel } else none
  (r, { s with nextId := if created then s.nextId + 1 else s.nextId,
               trace := s.trace ++ [Call.CreateSoundDriver sel r] })

/-- Embeds `Configuration::LoadSettings()` (also `LoadDefaults()` followed by it):
`loaded` is the driver selector configured afterwards. -/
def LoadSettings (loaded : SoundDriverType) (s : State) : State :=
  { s with configDriver := loaded }

/-! ## Timing standards and frequency -/

/-- Modelled from the spec: code of the NTSC timing standard (`AudioSpec.h` is
not under src/). -/
def SYSTEM_NTSC : Int := 0

/-- Modelled from the spec: code of the PAL timing standard (`AudioSpec.h` is
not under src/). -/
def SYSTEM_PAL : Int := 1

/-- Modelled from the spec: code of the MPAL timing standard (`AudioSpec.h` is
not under src/). -/
def SYSTEM_MPAL : Int := 2

/-- The `switch (SystemType)` of `AiDacrateChanged`.  The `default` label comes
first, holds `assert(FALSE)` and falls through into `case SYSTEM_NTSC`: with
`NDEBUG` the assertion is compiled out and the NTSC clock is used. -/
def video_clock (NDEBUG : Bool) (SystemType : Int) : Except Fault Nat :=
  if SystemType = SYSTEM_NTSC then .ok 48681812
  else if SystemType = SYSTEM_PAL then .ok 49656530
  else if SystemType = SYSTEM_MPAL then .ok 48628316
  else if NDEBUG then .ok 48681812
  else .error Fault.assertion

/-- The `#if 1` block of `AiDacrateChanged`: the chain of range tests on
`Frequency`. -/
def standardize (Frequency : Nat) : Nat :=
  if 7000 < Frequency ∧ Frequency < 9000 then 8000
  else if 10000 < Frequency ∧ Frequency < 12000 then 11025
  else if 18000 < Frequency ∧ Frequency < 20000 then 19000
  else if 21000 < Frequency ∧ Frequency < 23000 then 22050
  else if 31000 < Frequency ∧ Frequency < 33000 then 32000
  else if 43000 < Frequency ∧ Frequency < 45000 then 44100
  else if 47000 < Frequency ∧ Frequency < 49000 then 48000
  else Frequency

/-! ## Entry points -/

/-- Embeds `InitiateAudio(Audio_Info)`; the result pairs the returned `Boolean` with the
new state.  The old driver is shut down and deleted, the register view is
stored, the settings are loaded, the factory is asked for a driver.  Console
redirection, the timer-resolution call and the copies of the memory base
pointers touch nothing the other entry points read and are left out. -/
def InitiateAudio (Audio_Info : AUDIO_INFO) (loaded : SoundDriverType) (created : Bool)
    (s : State) : Bool × State :=
  let s := match s.snd with
    | some d => { s with trace := s.trace ++ [Call.AI_Shutdown d, Call.Delete d] }
    | none => s
  let s := { s with AudioInfo := Audio_Info }
  let s := LoadSettings loaded s
  let (r, s) := CreateSoundDriver s.configDriver created s
  let s := { s with snd := r }
  match r with
  | none => (false, s)
  | some d =>
    (true, { s with trace := s.trace ++ [Call.AI_Startup d], ai_delayed_carry := false })

/-- Embeds `CloseDLL()`. -/
def CloseDLL (s : State) : State :=
  match s.snd with
  | some d => { s with trace := s.trace ++ [Call.AI_Shutdown d, Call.Delete d], snd := none }
  | none => s

/-- Embeds `ProcessAList()`. -/
def ProcessAList (loaded : SoundDriverType) (s : State) : State :=
  let s := { s with RomRunning := true }
  let s := if s.first_time then LoadSettings loaded { s with first_time := false } else s
  match s.snd with
  | none => s
  | some _ => { s with trace := s.trace ++ [Call.HLEStart] }

/-- Embeds `RomOpen()`. -/
def RomOpen (loaded : SoundDriverType) (s : State) : State :=
  let s := { s with RomRunning := true }
  LoadSettings loaded { s with first_time := false }

/-- Embeds `RomClosed()`.  When the factory yields `NULL` in the swap branch, the
following `snd->AI_Startup()` goes through a null pointer. -/
def RomClosed (loaded : SoundDriverType) (created : Bool) (s : State) :
    Except Fault State :=
  let s := { s with RomRunning := false }
  let s := LoadSettings loaded s
  let s := { s with Dacrate := 0 }
  match s.snd with
  | none => .ok s
  | some d =>
    if s.bBackendChanged = true then
      let s := { s with trace := s.trace ++ [Call.AI_Shutdown d, Call.Delete d] }
      let (r, s) := CreateSoundDriver s.configDriver created s
      let s := { s with snd := r }
      match r with
      | none => .error Fault.nullDereference
      | some d' =>
        .ok { s with trace := s.trace ++ [Call.AI_Startup d'], bBackendChanged := false }
    else
      .ok { s with trace := s.trace ++ [Call.AI_ResetAudio d] }

/-- Embeds `DllConfig(hParent)`.  `hasDialog` is the build condition
`defined(_WIN32) && !defined(_XBOX)`; `chosen` is the driver configured when the
dialog closes.  Without the dialog the function only prints a message. -/
def DllConfig (hasDialog : Bool) (chosen : SoundDriverType) (s : State) : State :=
  if hasDialog then
    let currentDriver := s.configDriver
    let s := { s with configDriver := chosen }
    if currentDriver ≠ s.configDriver then { s with bBackendChanged := true } else s
  else s

/-- Embeds `AiDacrateChanged(SystemType)`. -/
def AiDacrateChanged (NDEBUG : Bool) (SystemType : Int) (s : State) : Except Fault State :=
  let s := { s with ai_delayed_carry := false }
  match s.snd with
  | none => .ok s
  | some d =>
    if s.Dacrate = s.AudioInfo.AI_DACRATE_REG then .ok s
    else
      let s := { s with Dacrate := s.AudioInfo.AI_DACRATE_REG &&& 0x00003FFF }
      match video_clock NDEBUG SystemType with
      | .error e => .error e
      | .ok clock =>
        let Frequency := clock / (s.Dacrate + 1)
        let Frequency := standardize Frequency
        .ok { s with trace := s.trace ++ [Call.AI_SetFrequency d Frequency] }

/-- Embeds `AiLenChanged()` with a register view stored.  The two registers are
read first, before the `snd == NULL` check; with `NULL` register pointers these
reads fail, which is `Plugin.AiLenChanged`.  The driver receives the pointer
`AudioInfo.RDRAM + address`; the trace records the offset `address`. -/
def AiLenChanged (s : State) : State :=
  let address := s.AudioInfo.AI_DRAM_ADDR_REG &&& 0x00FFFFF8
  let length := s.AudioInfo.AI_LEN_REG &&& 0x3FFF8
  match s.snd with
  | none => s
  | some d =>
    let address := if s.ai_delayed_carry then (address + 0x2000) % 2 ^ 32 else address
    let carry : Bool := decide (((address + length) % 2 ^ 32) &&& 0x1FFF = 0)
    { s with ai_delayed_carry := carry,
             trace := s.trace ++ [Call.AI_LenChanged d address length] }

/-- Embeds `AiReadLength()`; `reported` is the value `snd->AI_ReadLength()` returns. -/
def AiReadLength (reported : Nat) (s : State) : Nat × State :=
  match s.snd with
  | none => (0, s)
  | some d =>
    let s := { s with AudioInfo := { s.AudioInfo with AI_LEN_REG := reported },
                      trace := s.trace ++ [Call.AI_ReadLength d] }
    (s.AudioInfo.AI_LEN_REG, s)

/-- Embeds `AiUpdate(Wait)`.  Without a driver the function only sleeps (on Windows and
Xbox) and returns. -/
def AiUpdate (Wait : Bool) (s : State) : State :=
  match s.snd with
  | none => s
  | some d => { s with trace := s.trace ++ [Call.AI_Update d Wait] }

/-! ## Register traffic between two length events -/

/-- What the host may do between two `AiLenChanged` calls without a rate change
or a session event: write the registers, read the length, send an update tick. -/
inductive RegisterEvent where
  | write (regs : AUDIO_INFO)
  | readLength (reported : Nat)
  | update (Wait : Bool)
  deriving DecidableEq, Repr

/-- Runs one `RegisterEvent`. -/
def RegisterEvent.run : RegisterEvent → State → State
  | .write regs, s => hostWrite regs s
  | .readLength reported, s => (AiReadLength reported s).2
  | .update Wait, s => AiUpdate Wait s

/-- Runs a list of `RegisterEvent`s from left to right. -/
def runRegisterEvents : List RegisterEvent → State → State
  | [], s => s
  | e :: es, s => runRegisterEvents es (e.run s)

/-! ## Sequences of entry-point calls -/

/-- One call the host makes: an entry point with the arguments and the answers
of external code it meets, or a write to the registers. -/
inductive Entry where
  | initiate (Audio_Info : AUDIO_INFO) (loaded : SoundDriverType) (created : Bool)
  | close
  | romOpen (loaded : SoundDriverType)
  | romClosed (loaded : SoundDriverType) (created : Bool)
  | processAList (loaded : SoundDriverType)
  | config (hasDialog : Bool) (chosen : SoundDriverType)
  | write (regs : AUDIO_INFO)
  | dacrateChanged (SystemType : Int)
  | lenChanged
  | readLength (reported : Nat)
  | update (Wait : Bool)
  deriving DecidableEq, Repr

/-- Runs one `Entry` in a build with or without `NDEBUG`. -/
def Entry.run (NDEBUG : Bool) : Entry → State → Except Fault State
  | .initiate Audio_Info loaded created, s => .ok (InitiateAudio Audio_Info loaded created s).2
  | .close, s => .ok (CloseDLL s)
  | .romOpen loaded, s => .ok (RomOpen loaded s)
  | .romClosed loaded created, s => RomClosed loaded created s
  | .processAList loaded, s => .ok (ProcessAList loaded s)
  | .config hasDialog chosen, s => .ok (DllConfig hasDialog chosen s)
  | .write regs, s => .ok (hostWrite regs s)
  | .dacrateChanged SystemType, s => AiDacrateChanged NDEBUG SystemType s
  | .lenChanged, s => .ok (AiLenChanged s)
  | .readLength reported, s => .ok (AiReadLength reported s).2
  | .update Wait, s => .ok (AiUpdate Wait s)

/-- Whether the factory yields a driver if this entry asks it for one. -/
def Entry.creationSucceeds : Entry → Bool
  | .initiate _ _ created => created
  | .romClosed _ created => created
  | _ => true

/-- Runs a list of entries from left to right; the run ends at the first entry
that does not return. -/
def runEntries (NDEBUG : Bool) : List Entry → State → Except Fault State
  | [], s => .ok s
  | e :: es, s =>
    match e.run NDEBUG s with
    | .ok s' => runEntries NDEBUG es s'
    | .error f => .error f

/-- The calls of the driver factory. -/
def Call.isCreate : Call → Bool
  | .CreateSoundDriver _ _ => true
  | _ => false

/-- The `delete snd` calls. -/
def Call.isDelete : Call → Bool
  | .Delete _ => true
  | _ => false

/-- The `AI_Startup` calls. -/
def Call.isStartup : Call → Bool
  | .AI_Startup _ => true
  | _ => false

/-- One step of the check of a trace of calls.  The check carries the driver
object that is live and the call made last.  A factory call that yields a
driver is accepted only while no driver is live; a `delete` is accepted only
for the live driver and only right after `AI_Shutdown` on that driver. -/
def Call.check (st : Option Driver × Option Call) (c : Call) :
    Option (Option Driver × Option Call) :=
  match c with
  | .CreateSoundDriver _ (some d) => if st.1 = none then some (some d, some c) else none
  | .Delete d =>
    if st.1 = some d ∧ st.2 = some (Call.AI_Shutdown d) then some (none, some c) else none
  | _ => some (st.1, some c)

/-- Checks a trace call by call; the result is `none` as soon as a call is not
accepted, otherwise the live driver and the last call at the end. -/
def checkTrace : Option Driver × Option Call → List Call →
    Option (Option Driver × Option Call)
  | st, [] => some st
  | st, c :: cs => (Call.check st c).bind fun st' => checkTrace st' cs

/-- The lifecycle invariant of a state: the factory was called once more often
than `delete` if a driver is active and equally often otherwise, and the whole
trace passes `checkTrace` and ends with the active driver as the live one. -/
def Lifecycle (s : State) : Prop :=
  s.trace.countP Call.isCreate =
      s.trace.countP Call.isDelete + (if s.snd.isSome then 1 else 0) ∧
    ∃ last, checkTrace (none, none) s.trace = some (s.snd, last)

/-! ## The register pointers before the first `InitiateAudio` -/

/-- The plugin process.  `viewStored` says whether `InitiateAudio` has copied a
register view into the global `AudioInfo`; while it is false the pointers
`AI_DRAM_ADDR_REG`, `AI_LEN_REG` and `AI_DACRATE_REG` are `NULL` and the
register values recorded in `globals.AudioInfo` stand for nothing. -/
structure Plugin where
  viewStored : Bool
  globals : State
  deriving DecidableEq, Repr

/-- The process right after the library is loaded: no register view, no
driver. -/
def Plugin.atLoad (driver : SoundDriverType) : Plugin :=
  { viewStored := false, globals := State.init ⟨0, 0, 0⟩ driver }

/-- Embeds `InitiateAudio(Audio_Info)` on the process: the `memcpy` stores the
register view, whether or not the factory yields a driver afterwards. -/
def Plugin.InitiateAudio (Audio_Info : AUDIO_INFO) (loaded : SoundDriverType) (created : Bool)
    (p : Plugin) : Bool × Plugin :=
  ((AziAudio.InitiateAudio Audio_Info loaded created p.globals).1,
    { viewStored := true,
      globals := (AziAudio.InitiateAudio Audio_Info loaded created p.globals).2 })

/-- Embeds `AiDacrateChanged(SystemType)` on the process: `*AudioInfo.AI_DACRATE_REG`
is read only after the `snd == NULL` check. -/
def Plugin.AiDacrateChanged (NDEBUG : Bool) (SystemType : Int) (p : Plugin) :
    Except Fault Plugin :=
  match p.globals.snd with
  | none =>
    (AziAudio.AiDacrateChanged NDEBUG SystemType p.globals).map fun s => { p with globals := s }
  | some _ =>
    if p.viewStored then
      (AziAudio.AiDacrateChanged NDEBUG SystemType p.globals).map fun s => { p with globals := s }
    else .error Fault.nullDereference

/-- Embeds `AiLenChanged()` on the process: `*AudioInfo.AI_DRAM_ADDR_REG` and
`*AudioInfo.AI_LEN_REG` are read in the first two statements, before the
`snd == NULL` check. -/
def Plugin.AiLenChanged (p : Plugin) : Except Fault Plugin :=
  if p.viewStored then .ok { p with globals := AziAudio.AiLenChanged p.globals }
  else .error Fault.nullDereference

/-- Embeds `AiReadLength()` on the process: `*AudioInfo.AI_LEN_REG` is written and
read only after the `snd == NULL` check. -/
def Plugin.AiReadLength (reported : Nat) (p : Plugin) : Except Fault (Nat × Plugin) :=
  match p.globals.snd with
  | none => .ok (0, p)
  | some _ =>
    if p.viewStored then
      .ok ((AziAudio.AiReadLength reported p.globals).1,
        { p with globals := (AziAudio.AiReadLength reported p.globals).2 })
    else .error Fault.nullDereference

/-- Embeds `AiUpdate(Wait)` on the process: no register is touched. -/
def Plugin.AiUpdate (Wait : Bool) (p : Plugin) : Plugin :=
  { p with globals := AziAudio.AiUpdate Wait p.globals }

/-- Runs one `Entry` on the process.  Entries other than `InitiateAudio` and the
register events do not touch the register pointers; a register write by the
host goes to the host's own memory. -/
def Plugin.run (NDEBUG : Bool) : Entry → Plugin → Except Fault Plugin
  | .initiate Audio_Info loaded created, p =>
    .ok (Plugin.InitiateAudio Audio_Info loaded created p).2
  | .dacrateChanged SystemType, p => Plugin.AiDacrateChanged NDEBUG SystemType p
  | .lenChanged, p => Plugin.AiLenChanged p
  | .readLength reported, p => (Plugin.AiReadLength reported p).map Prod.snd
  | .update Wait, p => .ok (Plugin.AiUpdate Wait p)
  | e, p => (e.run NDEBUG p.globals).map fun s => { p with globals := s }

/-- Runs a list of entries on the process, ending at the first entry that does
not return. -/
def Plugin.runEntries (NDEBUG : Bool) : List Entry → Plugin → Except Fault Plugin
  | [], p => .ok p
  | e :: es, p =>
    match Plugin.run NDEBUG e p with
    | .ok p' => Plugin.runEntries NDEBUG es p'
    | .error f => .error f

/-! ## Sample states -/

/-- The state right after a successful `InitiateAudio` at load time, with the
registers holding `regs` and driver selector `0` configured. -/
def started (regs : AUDIO_INFO) : State :=
  (InitiateAudio regs 0 true (State.init regs 0)).2

/-- The driver object that is active in `started regs`. -/
def firstDriver : Driver := { id := 0, kind := 0 }

/-- The state `started regs` after the rate `5` was applied under NTSC timing and
the emulator core then stored `0x4005` (rate `5` with reserved bit 14 set) in the
DAC-rate register. -/
def rateFiveThenReserved : Except Fault State :=
  (AiDacrateChanged true SYSTEM_NTSC (started ⟨0, 0, 5⟩)).map (hostWrite ⟨0, 0, 0x4005⟩)

/-- The state `started regs` after the configuration dialog was used twice: first
to select driver `1`, then to select driver `0` again. -/
def configToggledBack : State :=
  DllConfig true 0 (DllConfig true 1 (started ⟨0, 0, 0⟩))

/-- A run of entry points in which every factory call yields a driver: start,
rate change, close, start again, driver changed in the dialog, ROM closed. -/
def sampleRun : List Entry :=
  [Entry.initiate ⟨0, 0, 1103⟩ 0 true, Entry.dacrateChanged SYSTEM_NTSC, Entry.close,
   Entry.initiate ⟨0, 0, 1103⟩ 0 true, Entry.config true 1, Entry.romClosed 1 true]

/-- The state `started regs` after the configuration dialog selected driver `1`:
a driver is active and `bBackendChanged` is set. -/
def swapPending : State :=
  DllConfig true 1 (started ⟨0, 0, 0⟩)

/-- The state `started regs` with the register holding rate `1103` after that
rate was applied under NTSC timing. -/
def rateApplied : Except Fault State :=
  AiDacrateChanged true SYSTEM_NTSC (started ⟨0, 0, 1103⟩)

/-- A state with a driver active and `ai_delayed_carry` set: `started regs` after
a length event whose buffer ends on an `0x2000` boundary. -/
def carrySet : State :=
  AiLenChanged (started ⟨0x1000, 0x1000, 1103⟩)

/-! ## Reachable states -/

/-- The states the host can bring the plugin to by calling entry points and
writing registers, starting from the load-time state. -/
inductive Reachable : State → Prop where
  | init (regs : AUDIO_INFO) (driver : SoundDriverType) : Reachable (State.init regs driver)
  | hostWrite {s : State} (regs : AUDIO_INFO) : Reachable s → Reachable (hostWrite regs s)
  | InitiateAudio {s : State} (Audio_Info : AUDIO_INFO) (loaded : SoundDriverType)
      (created : Bool) : Reachable s → Reachable (InitiateAudio Audio_Info loaded created s).2
  | CloseDLL {s : State} : Reachable s → Reachable (CloseDLL s)
  | ProcessAList {s : State} (loaded : SoundDriverType) :
      Reachable s → Reachable (ProcessAList loaded s)
  | RomOpen {s : State} (loaded : SoundDriverType) : Reachable s → Reachable (RomOpen loaded s)
  | RomClosed {s s' : State} (loaded : SoundDriverType) (created : Bool) :
      Reachable s → RomClosed loaded created s = .ok s' → Reachable s'
  | DllConfig {s : State} (hasDialog : Bool) (chosen : SoundDriverType) :
      Reachable s → Reachable (DllConfig hasDialog chosen s)
  | AiDacrateChanged {s s' : State} (NDEBUG : Bool) (SystemType : Int) :
      Reachable s → AiDacrateChanged NDEBUG SystemType s = .ok s' → Reachable s'
  | AiLenChanged {s : State} : Reachable s → Reachable (AiLenChanged s)
  | AiReadLength {s : State} (reported : Nat) :
      Reachable s → Reachable (AiReadLength reported s).2
  | AiUpdate {s : State} (Wait : Bool) : Reachable s → Reachable (AiUpdate Wait s)

/-! ## Helper lemmas -/

theorem issued_append (s s' : State) (l : List Call) (h : s'.trace = s.trace ++ l) :
    issued s s' = l := by
  simp [issued, h]

theorem issued_self (s : State) : issued s s = [] := by
  simp [issued]

theorem land_3FFF_le (r : Nat) : r &&& 0x3FFF ≤ 0x3FFF := Nat.and_le_right

theorem land_of_le_3FFF (r : Nat) (h : r ≤ 0x3FFF) : r &&& 0x3FFF = r := by
  have h1 : r &&& (2 ^ 14 - 1) = r % 2 ^ 14 := Nat.and_pow_two_sub_one_eq_mod r 14
  have h2 : r % 2 ^ 14 = r := Nat.mod_eq_of_lt (by omega)
  simpa using h1.trans h2

theorem standardize_fixed_or_rate (x : Nat) :
    standardize x = x ∨ standardize x = 8000 ∨ standardize x = 11025 ∨ standardize x = 19000 ∨
      standardize x = 22050 ∨ standardize x = 32000 ∨ standardize x = 44100 ∨
      standardize x = 48000 := by
  unfold standardize
  split_ifs <;> simp

theorem AiDacrateChanged_inactive (NDEBUG : Bool) (t : Int) (s : State) (hsnd : s.snd = none) :
    AiDacrateChanged NDEBUG t s = .ok { s with ai_delayed_carry := false } := by
  simp [AiDacrateChanged, hsnd]

theorem AiDacrateChanged_same (NDEBUG : Bool) (t : Int) (s : State) (d : Driver)
    (hsnd : s.snd = some d) (heq : s.Dacrate = s.AudioInfo.AI_DACRATE_REG) :
    AiDacrateChanged NDEBUG t s = .ok { s with ai_delayed_carry := false } := by
  simp [AiDacrateChanged, hsnd, heq]

theorem AiDacrateChanged_changed (NDEBUG : Bool) (t : Int) (s : State) (d : Driver) (c : Nat)
    (hsnd : s.snd = some d) (hne : s.Dacrate ≠ s.AudioInfo.AI_DACRATE_REG)
    (hc : video_clock NDEBUG t = .ok c) :
    AiDacrateChanged NDEBUG t s = .ok { s with
      ai_delayed_carry := false
      Dacrate := s.AudioInfo.AI_DACRATE_REG &&& 0x3FFF
      trace := s.trace ++ [Call.AI_SetFrequency d
        (standardize (c / ((s.AudioInfo.AI_DACRATE_REG &&& 0x3FFF) + 1)))] } := by
  simp [AiDacrateChanged, hsnd, hne, hc]

theorem video_clock_returns (NDEBUG : Bool) (t : Int)
    (h : NDEBUG = true ∨ t = SYSTEM_NTSC ∨ t = SYSTEM_PAL ∨ t = SYSTEM_MPAL) :
    ∃ c, video_clock NDEBUG t = .ok c := by
  unfold video_clock
  split_ifs with h1 h2 h3 h4
  · exact ⟨_, rfl⟩
  · exact ⟨_, rfl⟩
  · exact ⟨_, rfl⟩
  · exact ⟨_, rfl⟩
  · rcases h with h | h | h | h
    · exact absurd h h4
    · exact absurd h h1
    · exact absurd h h2
    · exact absurd h h3

theorem AiLenChanged_active (s : State) (d : Driver) (hsnd : s.snd = some d) :
    AiLenChanged s =
      { s with
        ai_delayed_carry := decide
          ((((s.AudioInfo.AI_DRAM_ADDR_REG &&& 0x00FFFFF8) +
              (if s.ai_delayed_carry then 0x2000 else 0)) +
            (s.AudioInfo.AI_LEN_REG &&& 0x3FFF8)) &&& 0x1FFF = 0)
        trace := s.trace ++ [Call.AI_LenChanged d
          ((s.AudioInfo.AI_DRAM_ADDR_REG &&& 0x00FFFFF8) +
            (if s.ai_delayed_carry then 0x2000 else 0))
          (s.AudioInfo.AI_LEN_REG &&& 0x3FFF8)] } := by
  have ha : s.AudioInfo.AI_DRAM_ADDR_REG &&& 0x00FFFFF8 ≤ 0x00FFFFF8 := Nat.and_le_right
  have hl : s.AudioInfo.AI_LEN_REG &&& 0x3FFF8 ≤ 0x3FFF8 := Nat.and_le_right
  unfold AiLenChanged
  rw [hsnd]
  cases hc : s.ai_delayed_carry
  · have h1 : ((s.AudioInfo.AI_DRAM_ADDR_REG &&& 0x00FFFFF8) +
        (s.AudioInfo.AI_LEN_REG &&& 0x3FFF8)) % 4294967296 =
        (s.AudioInfo.AI_DRAM_ADDR_REG &&& 0x00FFFFF8) +
        (s.AudioInfo.AI_LEN_REG &&& 0x3FFF8) := Nat.mod_eq_of_lt (by omega)
    simp [h1]
  · have h0 : ((s.AudioInfo.AI_DRAM_ADDR_REG &&& 0x00FFFFF8) + 0x2000) % 4294967296 =
        (s.AudioInfo.AI_DRAM_ADDR_REG &&& 0x00FFFFF8) + 0x2000 := Nat.mod_eq_of_lt (by omega)
    have h1 : ((s.AudioInfo.AI_DRAM_ADDR_REG &&& 0x00FFFFF8) + 0x2000 +
        (s.AudioInfo.AI_LEN_REG &&& 0x3FFF8)) % 4294967296 =
        (s.AudioInfo.AI_DRAM_ADDR_REG &&& 0x00FFFFF8) + 0x2000 +
        (s.AudioInfo.AI_LEN_REG &&& 0x3FFF8) := Nat.mod_eq_of_lt (by omega)
    simp [h0, h1]

theorem RegisterEvent.run_frame (e : RegisterEvent) (s : State) :
    (e.run s).snd = s.snd ∧ (e.run s).ai_delayed_carry = s.ai_delayed_carry ∧
      (e.run s).Dacrate = s.Dacrate := by
  obtain ⟨snd, c, b, f, r, a, rr, cd, n, tr⟩ := s
  cases e with
  | write regs => exact ⟨rfl, rfl, rfl⟩
  | readLength reported => cases snd <;> exact ⟨rfl, rfl, rfl⟩
  | update Wait => cases snd <;> exact ⟨rfl, rfl, rfl⟩

theorem runRegisterEvents_frame (es : List RegisterEvent) (s : State) :
    (runRegisterEvents es s).snd = s.snd ∧
      (runRegisterEvents es s).ai_delayed_carry = s.ai_delayed_carry ∧
      (runRegisterEvents es s).Dacrate = s.Dacrate := by
  induction es generalizing s with
  | nil => exact ⟨rfl, rfl, rfl⟩
  | cons e es ih =>
    obtain ⟨h1, h2, h3⟩ := ih (e.run s)
    obtain ⟨g1, g2, g3⟩ := e.run_frame s
    exact ⟨h1.trans g1, h2.trans g2, h3.trans g3⟩

theorem checkTrace_append (st : Option Driver × Option Call) (l₁ l₂ : List Call) :
    checkTrace st (l₁ ++ l₂) = (checkTrace st l₁).bind fun st' => checkTrace st' l₂ := by
  induction l₁ generalizing st with
  | nil => rfl
  | cons c cs ih =>
    simp only [List.cons_append, checkTrace]
    cases Call.check st c with
    | none => rfl
    | some st' => exact ih st'

theorem Lifecycle_step (s s' : State) (chunk : List Call)
    (htrace : s'.trace = s.trace ++ chunk)
    (hcount : chunk.countP Call.isCreate + (if s.snd.isSome then 1 else 0) =
      chunk.countP Call.isDelete + (if s'.snd.isSome then 1 else 0))
    (hcheck : ∀ last, ∃ last', checkTrace (s.snd, last) chunk = some (s'.snd, last'))
    (hinv : Lifecycle s) : Lifecycle s' := by
  obtain ⟨h1, last, h2⟩ := hinv
  obtain ⟨last', h3⟩ := hcheck last
  refine ⟨?_, last', ?_⟩
  · rw [htrace, List.countP_append, List.countP_append]
    omega
  · rw [htrace, checkTrace_append, h2]
    exact h3

theorem Lifecycle_init (regs : AUDIO_INFO) (driver : SoundDriverType) :
    Lifecycle (State.init regs driver) :=
  ⟨rfl, none, rfl⟩

theorem DllConfig_frame (hasDialog : Bool) (chosen : SoundDriverType) (s : State) :
    (DllConfig hasDialog chosen s).trace = s.trace ∧ (DllConfig hasDialog chosen s).snd = s.snd ∧
      (DllConfig hasDialog chosen s).ai_delayed_carry = s.ai_delayed_carry ∧
      (DllConfig hasDialog chosen s).Dacrate = s.Dacrate := by
  cases hasDialog with
  | false => exact ⟨rfl, rfl, rfl, rfl⟩
  | true =>
    by_cases h : s.configDriver = chosen
    · simp [DllConfig, h]
    · simp [DllConfig, h]

theorem Entry.run_lifecycle (NDEBUG : Bool) (e : Entry) (s s' : State)
    (hc : e.creationSucceeds = true) (hrun : e.run NDEBUG s = .ok s') (hinv : Lifecycle s) :
    Lifecycle s' := by
  obtain ⟨snd, c, b, f, r, a, rr, cd, n, tr⟩ := s
  cases e with
  | initiate Audio_Info loaded created =>
    simp only [Entry.creationSucceeds] at hc
    subst hc
    simp only [Entry.run, Except.ok.injEq] at hrun
    subst hrun
    cases snd with
    | none =>
      exact Lifecycle_step _ _ [Call.CreateSoundDriver loaded (some ⟨n, loaded⟩),
        Call.AI_Startup ⟨n, loaded⟩]
        (by simp [InitiateAudio, LoadSettings, CreateSoundDriver])
        (by simp [InitiateAudio, LoadSettings, CreateSoundDriver, Call.isCreate, Call.isDelete])
        (fun last => ⟨_, by
          simp [InitiateAudio, LoadSettings, CreateSoundDriver, checkTrace, Call.check]; rfl⟩)
        hinv
    | some d =>
      exact Lifecycle_step _ _ [Call.AI_Shutdown d, Call.Delete d,
        Call.CreateSoundDriver loaded (some ⟨n, loaded⟩), Call.AI_Startup ⟨n, loaded⟩]
        (by simp [InitiateAudio, LoadSettings, CreateSoundDriver])
        (by simp [InitiateAudio, LoadSettings, CreateSoundDriver, Call.isCreate, Call.isDelete])
        (fun last => ⟨_, by
          simp [InitiateAudio, LoadSettings, CreateSoundDriver, checkTrace, Call.check]; rfl⟩)
        hinv
  | close =>
    simp only [Entry.run, Except.ok.injEq] at hrun
    subst hrun
    cases snd with
    | none => exact hinv
    | some d =>
      exact Lifecycle_step _ _ [Call.AI_Shutdown d, Call.Delete d]
        (by simp [CloseDLL])
        (by simp [CloseDLL, Call.isCreate, Call.isDelete])
        (fun last => ⟨_, by simp [CloseDLL, checkTrace, Call.check]; rfl⟩)
        hinv
  | romOpen loaded =>
    simp only [Entry.run, Except.ok.injEq] at hrun
    subst hrun
    exact hinv
  | romClosed loaded created =>
    simp only [Entry.creationSucceeds] at hc
    subst hc
    cases snd with
    | none =>
      simp [Entry.run, RomClosed, LoadSettings] at hrun
      subst hrun
      exact hinv
    | some d =>
      cases b with
      | false =>
        simp [Entry.run, RomClosed, LoadSettings] at hrun
        subst hrun
        exact Lifecycle_step _ _ [Call.AI_ResetAudio d] rfl
          (by simp [Call.isCreate, Call.isDelete])
          (fun last => ⟨_, by simp [checkTrace, Call.check]; rfl⟩)
          hinv
      | true =>
        simp [Entry.run, RomClosed, LoadSettings, CreateSoundDriver] at hrun
        subst hrun
        exact Lifecycle_step _ _ [Call.AI_Shutdown d, Call.Delete d,
          Call.CreateSoundDriver loaded (some ⟨n, loaded⟩), Call.AI_Startup ⟨n, loaded⟩]
          (by simp)
          (by simp [Call.isCreate, Call.isDelete])
          (fun last => ⟨_, by simp [checkTrace, Call.check]; rfl⟩)
          hinv
  | processAList loaded =>
    simp only [Entry.run, Except.ok.injEq] at hrun
    subst hrun
    cases snd with
    | none => cases f <;> exact hinv
    | some d =>
      cases f <;>
      exact Lifecycle_step _ _ [Call.HLEStart] rfl
        (by simp [ProcessAList, LoadSettings, Call.isCreate, Call.isDelete])
        (fun last => ⟨_, by simp [ProcessAList, LoadSettings, checkTrace, Call.check]; rfl⟩)
        hinv
  | config hasDialog chosen =>
    simp only [Entry.run, Except.ok.injEq] at hrun
    subst hrun
    obtain ⟨h1, h2, -⟩ := DllConfig_frame hasDialog chosen
      { snd := snd, ai_delayed_carry := c, bBackendChanged := b, first_time := f, Dacrate := r,
        AudioInfo := a, RomRunning := rr, configDriver := cd, nextId := n, trace := tr }
    exact Lifecycle_step _ _ [] (by rw [h1]; simp) (by rw [h2]; simp)
      (fun last => ⟨last, by rw [h2]; rfl⟩) hinv
  | write regs =>
    simp only [Entry.run, Except.ok.injEq] at hrun
    subst hrun
    exact hinv
  | dacrateChanged SystemType =>
    simp only [Entry.run] at hrun
    cases snd with
    | none =>
      rw [AiDacrateChanged_inactive NDEBUG SystemType _ rfl] at hrun
      cases hrun
      exact hinv
    | some d =>
      by_cases heq : r = a.AI_DACRATE_REG
      · rw [AiDacrateChanged_same NDEBUG SystemType _ d rfl heq] at hrun
        cases hrun
        exact hinv
      · cases hv : video_clock NDEBUG SystemType with
        | error err => simp [AiDacrateChanged, heq, hv] at hrun
        | ok clock =>
          rw [AiDacrateChanged_changed NDEBUG SystemType _ d clock rfl heq hv] at hrun
          cases hrun
          exact Lifecycle_step _ _ [Call.AI_SetFrequency d _] rfl
            (by simp [Call.isCreate, Call.isDelete])
            (fun last => ⟨_, by simp [checkTrace, Call.check]; rfl⟩)
            hinv
  | lenChanged =>
    simp only [Entry.run, Except.ok.injEq] at hrun
    subst hrun
    cases snd with
    | none => exact hinv
    | some d =>
      exact Lifecycle_step _ _ [Call.AI_LenChanged d _ _] rfl
        (by simp [AiLenChanged, Call.isCreate, Call.isDelete])
        (fun last => ⟨_, by simp [AiLenChanged, checkTrace, Call.check]; rfl⟩)
        hinv
  | readLength reported =>
    simp only [Entry.run, Except.ok.injEq] at hrun
    subst hrun
    cases snd with
    | none => exact hinv
    | some d =>
      exact Lifecycle_step _ _ [Call.AI_ReadLength d] rfl
        (by simp [AiReadLength, Call.isCreate, Call.isDelete])
        (fun last => ⟨_, by simp [AiReadLength, checkTrace, Call.check]; rfl⟩)
        hinv
  | update Wait =>
    simp only [Entry.run, Except.ok.injEq] at hrun
    subst hrun
    cases snd with
    | none => exact hinv
    | some d =>
      exact Lifecycle_step _ _ [Call.AI_Update d Wait] rfl
        (by simp [AiUpdate, Call.isCreate, Call.isDelete])
        (fun last => ⟨_, by simp [AiUpdate, checkTrace, Call.check]; rfl⟩)
        hinv

theorem runEntries_lifecycle (NDEBUG : Bool) (es : List Entry) (s s' : State)
    (hc : ∀ e ∈ es, e.creationSucceeds = true) (hrun : runEntries NDEBUG es s = .ok s')
    (hinv : Lifecycle s) : Lifecycle s' := by
  induction es generalizing s with
  | nil =>
    simp only [runEntries, Except.ok.injEq] at hrun
    subst hrun
    exact hinv
  | cons e es ih =>
    simp only [runEntries] at hrun
    cases he : e.run NDEBUG s with
    | error err => rw [he] at hrun; cases hrun
    | ok s₁ =>
      rw [he] at hrun
      exact ih s₁ (fun e' h' => hc e' (List.mem_cons_of_mem e h')) hrun
        (Entry.run_lifecycle NDEBUG e s s₁ (hc e (List.mem_cons_self e es)) he hinv)

theorem Call.check_last (st st' : Option Driver × Option Call) (c : Call)
    (h : Call.check st c = some st') : st'.2 = some c := by
  unfold Call.check at h
  split at h
  · split_ifs at h
    cases h
    rfl
  · split_ifs at h
    cases h
    rfl
  · cases h
    rfl

theorem checkTrace_concat_last (st st' : Option Driver × Option Call) (pre : List Call)
    (c : Call) (h : checkTrace st (pre ++ [c]) = some st') : st'.2 = some c := by
  rw [checkTrace_append] at h
  cases h1 : checkTrace st pre with
  | none => rw [h1] at h; cases h
  | some st₁ =>
    rw [h1] at h
    simp only [Option.bind, checkTrace] at h
    cases h2 : Call.check st₁ c with
    | none => rw [h2] at h; cases h
    | some st₂ =>
      rw [h2] at h
      have he : st₂ = st' := by simpa using h
      rw [← he]
      exact Call.check_last st₁ st₂ c h2

theorem checkTrace_delete_after_shutdown (tr pre post : List Call) (d : Driver)
    (st' : Option Driver × Option Call)
    (hcheck : checkTrace (none, none) tr = some st') (hsplit : tr = pre ++ Call.Delete d :: post) :
    ∃ pre', pre = pre' ++ [Call.AI_Shutdown d] := by
  subst hsplit
  rw [checkTrace_append] at hcheck
  cases h1 : checkTrace (none, none) pre with
  | none => rw [h1] at hcheck; cases hcheck
  | some st₁ =>
    rw [h1] at hcheck
    simp only [Option.bind, checkTrace] at hcheck
    have hlast : st₁.2 = some (Call.AI_Shutdown d) := by
      by_cases hd : st₁.1 = some d ∧ st₁.2 = some (Call.AI_Shutdown d)
      · exact hd.2
      · simp [Call.check, hd] at hcheck
    rcases List.eq_nil_or_concat pre with hnil | ⟨pre', c, hpre⟩
    · subst hnil
      simp only [checkTrace, Option.some.injEq] at h1
      subst h1
      cases hlast
    · rw [List.concat_eq_append] at hpre
      subst hpre
      have hc := checkTrace_concat_last _ _ _ _ h1
      rw [hc] at hlast
      cases hlast
      exact ⟨pre', rfl⟩

theorem InitiateAudio_created (Audio_Info : AUDIO_INFO) (loaded : SoundDriverType) (s : State) :
    InitiateAudio Audio_Info loaded true s =
      (true, { s with
        AudioInfo := Audio_Info
        configDriver := loaded
        snd := some ⟨s.nextId, loaded⟩
        nextId := s.nextId + 1
        ai_delayed_carry := false
        trace := s.trace ++
          ((match s.snd with
            | some d => [Call.AI_Shutdown d, Call.Delete d]
            | none => []) ++
          [Call.CreateSoundDriver loaded (some ⟨s.nextId, loaded⟩),
            Call.AI_Startup ⟨s.nextId, loaded⟩]) }) := by
  obtain ⟨snd, c, b, f, r, a, rr, cd, n, tr⟩ := s
  cases snd <;> simp [InitiateAudio, LoadSettings, CreateSoundDriver]

theorem InitiateAudio_failed (Audio_Info : AUDIO_INFO) (loaded : SoundDriverType) (s : State) :
    InitiateAudio Audio_Info loaded false s =
      (false, { s with
        AudioInfo := Audio_Info
        configDriver := loaded
        snd := none
        trace := s.trace ++
          ((match s.snd with
            | some d => [Call.AI_Shutdown d, Call.Delete d]
            | none => []) ++
          [Call.CreateSoundDriver loaded none]) }) := by
  obtain ⟨snd, c, b, f, r, a, rr, cd, n, tr⟩ := s
  cases snd <;> simp [InitiateAudio, LoadSettings, CreateSoundDriver]

theorem CloseDLL_frame (s : State) :
    (CloseDLL s).Dacrate = s.Dacrate ∧ (CloseDLL s).ai_delayed_carry = s.ai_delayed_carry ∧
      (CloseDLL s).nextId = s.nextId ∧ (CloseDLL s).snd = none := by
  obtain ⟨snd, c, b, f, r, a, rr, cd, n, tr⟩ := s
  cases snd <;> exact ⟨rfl, rfl, rfl, rfl⟩

theorem RomClosed_frame (loaded : SoundDriverType) (created : Bool) (s s' : State)
    (h : RomClosed loaded created s = .ok s') :
    s'.ai_delayed_carry = s.ai_delayed_carry ∧ s'.Dacrate = 0 := by
  obtain ⟨snd, c, b, f, r, a, rr, cd, n, tr⟩ := s
  cases snd with
  | none =>
    simp [RomClosed, LoadSettings] at h
    subst h
    exact ⟨rfl, rfl⟩
  | some d =>
    cases b with
    | false =>
      simp [RomClosed, LoadSettings] at h
      subst h
      exact ⟨rfl, rfl⟩
    | true =>
      cases created with
      | false => simp [RomClosed, LoadSettings, CreateSoundDriver] at h
      | true =>
        simp [RomClosed, LoadSettings, CreateSoundDriver] at h
        subst h
        exact ⟨rfl, rfl⟩

theorem RomClosed_returns (loaded : SoundDriverType) (s : State) :
    ∃ s', RomClosed loaded true s = .ok s' := by
  obtain ⟨snd, c, b, f, r, a, rr, cd, n, tr⟩ := s
  cases snd with
  | none => exact ⟨_, rfl⟩
  | some d => cases b <;> exact ⟨_, rfl⟩

theorem ProcessAList_eq (loaded : SoundDriverType) (s : State) :
    (ProcessAList loaded s).trace = s.trace ++ (if s.snd.isSome then [Call.HLEStart] else []) ∧
      (ProcessAList loaded s).RomRunning = true ∧
      (ProcessAList loaded s).ai_delayed_carry = s.ai_delayed_carry ∧
      (ProcessAList loaded s).snd = s.snd := by
  obtain ⟨snd, c, b, f, r, a, rr, cd, n, tr⟩ := s
  cases snd <;> cases f <;> simp [ProcessAList, LoadSettings]

theorem video_clock_unrecognised (NDEBUG : Bool) (t : Int) (h1 : t ≠ SYSTEM_NTSC)
    (h2 : t ≠ SYSTEM_PAL) (h3 : t ≠ SYSTEM_MPAL) :
    video_clock NDEBUG t = if NDEBUG then .ok 48681812 else .error Fault.assertion := by
  simp [video_clock, h1, h2, h3]

theorem land_1FFF_eq_mod (x : Nat) : x &&& 0x1FFF = x % 0x2000 := by
  simpa using Nat.and_pow_two_sub_one_eq_mod x 13

theorem land_mod_eight (a m : Nat) (hm : m &&& (2 ^ 3 - 1) = 0) : (a &&& m) % 8 = 0 := by
  have h := (Nat.and_pow_two_sub_one_eq_mod (a &&& m) 3).symm
  have h2 : a &&& m &&& (2 ^ 3 - 1) = a &&& (m &&& (2 ^ 3 - 1)) := Nat.and_assoc a m (2 ^ 3 - 1)
  rw [hm, Nat.and_zero] at h2
  exact h.trans h2

theorem Plugin.run_stored (NDEBUG : Bool) (e : Entry) (p : Plugin) (hview : p.viewStored = true) :
    Plugin.run NDEBUG e p =
      (e.run NDEBUG p.globals).map fun s => { viewStored := true, globals := s } := by
  obtain ⟨v, g⟩ := p
  simp only at hview
  subst hview
  cases e with
  | initiate Audio_Info loaded created => rfl
  | dacrateChanged SystemType =>
    simp only [Plugin.run, Plugin.AiDacrateChanged, Entry.run]
    cases g.snd <;> rfl
  | lenChanged => rfl
  | readLength reported =>
    simp only [Plugin.run, Plugin.AiReadLength, Entry.run]
    cases hs : g.snd with
    | none => simp [AziAudio.AiReadLength, hs, Except.map]
    | some d => rfl
  | update Wait => rfl
  | close => rfl
  | romOpen loaded => rfl
  | romClosed loaded created => rfl
  | processAList loaded => rfl
  | config hasDialog chosen => rfl
  | write regs => rfl

theorem Plugin.run_driver_has_view (NDEBUG : Bool) (e : Entry) (p p' : Plugin)
    (hrun : Plugin.run NDEBUG e p = .ok p')
    (hinv : p.globals.snd.isSome = true → p.viewStored = true) :
    p'.globals.snd.isSome = true → p'.viewStored = true := by
  cases hv : p.viewStored with
  | true =>
    rw [Plugin.run_stored NDEBUG e p hv] at hrun
    cases hr : e.run NDEBUG p.globals with
    | error err => rw [hr] at hrun; cases hrun
    | ok s =>
      rw [hr] at hrun
      cases hrun
      intro _
      rfl
  | false =>
    have hsnd : p.globals.snd = none := by
      cases hs : p.globals.snd with
      | none => rfl
      | some d =>
        have h := hinv (by rw [hs]; rfl)
        rw [hv] at h
        cases h
    obtain ⟨v, ⟨snd, c, b, f, r, a, rr, cd, n, tr⟩⟩ := p
    simp only at hv hsnd
    subst hv hsnd
    cases e with
    | initiate Audio_Info loaded created =>
      simp only [Plugin.run, Plugin.InitiateAudio, Except.ok.injEq] at hrun
      subst hrun
      intro _
      rfl
    | dacrateChanged SystemType =>
      simp [Plugin.run, Plugin.AiDacrateChanged, AziAudio.AiDacrateChanged, Except.map] at hrun
      subst hrun
      simp
    | lenChanged => simp [Plugin.run, Plugin.AiLenChanged] at hrun
    | readLength reported =>
      simp [Plugin.run, Plugin.AiReadLength, Except.map] at hrun
      subst hrun
      simp
    | update Wait =>
      simp [Plugin.run, Plugin.AiUpdate, AziAudio.AiUpdate] at hrun
      subst hrun
      simp
    | close =>
      simp [Plugin.run, Entry.run, CloseDLL, Except.map] at hrun
      subst hrun
      simp
    | romOpen loaded =>
      simp [Plugin.run, Entry.run, RomOpen, LoadSettings, Except.map] at hrun
      subst hrun
      simp
    | romClosed loaded created =>
      simp [Plugin.run, Entry.run, RomClosed, LoadSettings, Except.map] at hrun
      subst hrun
      simp
    | processAList loaded =>
      cases f <;>
      · simp [Plugin.run, Entry.run, ProcessAList, LoadSettings, Except.map] at hrun
        subst hrun
        simp
    | config hasDialog chosen =>
      simp only [Plugin.run, Entry.run, Except.map, Except.ok.injEq] at hrun
      subst hrun
      simp [(DllConfig_frame hasDialog chosen _).2.1]
    | write regs =>
      simp [Plugin.run, Entry.run, hostWrite, Except.map] at hrun
      subst hrun
      simp

theorem Plugin.runEntries_driver_has_view (NDEBUG : Bool) (es : List Entry) (p p' : Plugin)
    (hrun : Plugin.runEntries NDEBUG es p = .ok p')
    (hinv : p.globals.snd.isSome = true → p.viewStored = true) :
    p'.globals.snd.isSome = true → p'.viewStored = true := by
  induction es generalizing p with
  | nil =>
    simp only [Plugin.runEntries, Except.ok.injEq] at hrun
    subst hrun
    exact hinv
  | cons e es ih =>
    simp only [Plugin.runEntries] at hrun
    cases he : Plugin.run NDEBUG e p with
    | error err => rw [he] at hrun; cases hrun
    | ok p₁ =>
      rw [he] at hrun
      exact ih p₁ hrun (Plugin.run_driver_has_view NDEBUG e p p₁ he hinv)

/-! ## The frequency-change handler -/

/-- C1: with a driver active and the stored `Dacrate` different from the register
value `r`, `AiDacrateChanged` called with one of the three timing standards
returns, makes exactly one call, `AI_SetFrequency` on the active driver with
`standardize (video_clock / ((r & 0x3FFF) + 1))` (clock 48681812 / 49656530 /
48628316 for NTSC / PAL / MPAL), and leaves `Dacrate = r & 0x3FFF`. -/
theorem dacrate_changed_sets_frequency (NDEBUG : Bool) (t : Int) (s : State) (d : Driver)
    (hsnd : s.snd = some d) (hne : s.Dacrate ≠ s.AudioInfo.AI_DACRATE_REG)
    (ht : t = SYSTEM_NTSC ∨ t = SYSTEM_PAL ∨ t = SYSTEM_MPAL) :
    ∃ s', AiDacrateChanged NDEBUG t s = .ok s' ∧
      issued s s' = [Call.AI_SetFrequency d (standardize
        ((if t = SYSTEM_NTSC then 48681812 else if t = SYSTEM_PAL then 49656530
          else 48628316) / ((s.AudioInfo.AI_DACRATE_REG &&& 0x3FFF) + 1)))] ∧
      s'.Dacrate = s.AudioInfo.AI_DACRATE_REG &&& 0x3FFF := by
  rcases ht with rfl | rfl | rfl
  · refine ⟨_, by simp [AiDacrateChanged, hsnd, hne, video_clock]; rfl, ?_, rfl⟩
    exact issued_append _ _ _ (by simp [SYSTEM_NTSC])
  · refine ⟨_, by simp [AiDacrateChanged, hsnd, hne, video_clock, SYSTEM_PAL, SYSTEM_NTSC]; rfl,
      ?_, rfl⟩
    exact issued_append _ _ _ (by simp [SYSTEM_PAL, SYSTEM_NTSC])
  · refine ⟨_, by
      simp [AiDacrateChanged, hsnd, hne, video_clock, SYSTEM_PAL, SYSTEM_NTSC, SYSTEM_MPAL]; rfl,
      ?_, rfl⟩
    exact issued_append _ _ _ (by simp [SYSTEM_PAL, SYSTEM_NTSC, SYSTEM_MPAL])

theorem dacrate_changed_sets_frequency_witness :
    ∃ s', AiDacrateChanged true SYSTEM_PAL (started ⟨0, 0, 0x4465⟩) = .ok s' ∧
      issued (started ⟨0, 0, 0x4465⟩) s' = [Call.AI_SetFrequency firstDriver (standardize
        ((if SYSTEM_PAL = SYSTEM_NTSC then 48681812 else if SYSTEM_PAL = SYSTEM_PAL then 49656530
          else 48628316) / (((started ⟨0, 0, 0x4465⟩).AudioInfo.AI_DACRATE_REG &&& 0x3FFF) + 1)))] ∧
      s'.Dacrate = (started ⟨0, 0, 0x4465⟩).AudioInfo.AI_DACRATE_REG &&& 0x3FFF :=
  dacrate_changed_sets_frequency true SYSTEM_PAL (started ⟨0, 0, 0x4465⟩) firstDriver rfl
    (by decide) (Or.inr (Or.inl rfl))

/-- C2, as stated, fails: with a driver active, `Dacrate = 0` and the register
holding `r = 0`, two calls of `AiDacrateChanged` in a row both return and make no
`AI_SetFrequency` call at all. -/
theorem dacrate_twice_once_fails_at_zero :
    ¬ ∀ (NDEBUG : Bool) (t : Int) (s : State) (d : Driver),
      s.snd = some d → s.Dacrate = 0 →
      (t = SYSTEM_NTSC ∨ t = SYSTEM_PAL ∨ t = SYSTEM_MPAL) →
      ∃ s1 s2, AiDacrateChanged NDEBUG t s = .ok s1 ∧ AiDacrateChanged NDEBUG t s1 = .ok s2 ∧
        ((issued s s2).filter Call.isSetFrequency).length = 1 := by
  intro h
  obtain ⟨s1, s2, h1, h2, h3⟩ :=
    h true SYSTEM_NTSC (started ⟨0, 0, 0⟩) firstDriver rfl rfl (Or.inl rfl)
  have e1 : AiDacrateChanged true SYSTEM_NTSC (started ⟨0, 0, 0⟩) = .ok (started ⟨0, 0, 0⟩) := rfl
  rw [e1] at h1
  cases h1
  rw [e1] at h2
  cases h2
  simp [issued] at h3

/-- C2, amended: with a driver active, `Dacrate = 0` and the register holding the
same `r` at both calls, where `r` has no reserved bit set (`r ≤ 0x3FFF`), two
calls of `AiDacrateChanged` in a row with a recognised timing standard return
and make exactly one call in total when `r ≠ 0` (the `AI_SetFrequency` of the
first call) and no call when `r = 0`. -/
theorem dacrate_twice_once (NDEBUG : Bool) (t : Int) (s : State) (d : Driver)
    (hsnd : s.snd = some d) (h0 : s.Dacrate = 0) (hr : s.AudioInfo.AI_DACRATE_REG ≤ 0x3FFF)
    (ht : t = SYSTEM_NTSC ∨ t = SYSTEM_PAL ∨ t = SYSTEM_MPAL) :
    ∃ s1 s2, AiDacrateChanged NDEBUG t s = .ok s1 ∧ AiDacrateChanged NDEBUG t s1 = .ok s2 ∧
      s1.AudioInfo = s.AudioInfo ∧
      (s.AudioInfo.AI_DACRATE_REG ≠ 0 →
        issued s s1 = [Call.AI_SetFrequency d (standardize
          ((if t = SYSTEM_NTSC then 48681812 else if t = SYSTEM_PAL then 49656530
            else 48628316) / (s.AudioInfo.AI_DACRATE_REG + 1)))] ∧
        issued s s2 = issued s s1) ∧
      (s.AudioInfo.AI_DACRATE_REG = 0 → issued s s2 = []) := by
  by_cases hz : s.AudioInfo.AI_DACRATE_REG = 0
  · have e : AiDacrateChanged NDEBUG t s = .ok { s with ai_delayed_carry := false } := by
      simp [AiDacrateChanged, hsnd, h0, hz]
    have e' : AiDacrateChanged NDEBUG t { s with ai_delayed_carry := false } =
        .ok { s with ai_delayed_carry := false } := by
      simp [AiDacrateChanged, hsnd, h0, hz]
    exact ⟨_, _, e, e', rfl, fun h => absurd hz h, fun _ => issued_append _ _ _ (by simp)⟩
  · have hne : s.Dacrate ≠ s.AudioInfo.AI_DACRATE_REG := by rw [h0]; exact Ne.symm hz
    have hmask := land_of_le_3FFF _ hr
    have hv : ∃ c, video_clock NDEBUG t = .ok c ∧
        c = (if t = SYSTEM_NTSC then 48681812 else if t = SYSTEM_PAL then 49656530
            else 48628316) := by
      rcases ht with rfl | rfl | rfl <;> exact ⟨_, rfl, rfl⟩
    obtain ⟨c, hc, hcv⟩ := hv
    have e : AiDacrateChanged NDEBUG t s = .ok { s with
        ai_delayed_carry := false
        Dacrate := s.AudioInfo.AI_DACRATE_REG
        trace := s.trace ++ [Call.AI_SetFrequency d
          (standardize (c / (s.AudioInfo.AI_DACRATE_REG + 1)))] } := by
      simp only [AiDacrateChanged, hsnd, hc]
      rw [if_neg hne]
      simp [hmask]
    refine ⟨_, _, e, ?_, rfl, fun _ => ⟨issued_append _ _ _ (by rw [hcv]), rfl⟩,
      fun h => absurd h hz⟩
    simp [AiDacrateChanged, hsnd]

theorem dacrate_twice_once_witness :
    ∃ s1 s2, AiDacrateChanged true SYSTEM_NTSC (started ⟨0, 0, 1103⟩) = .ok s1 ∧
      AiDacrateChanged true SYSTEM_NTSC s1 = .ok s2 ∧
      s1.AudioInfo = (started ⟨0, 0, 1103⟩).AudioInfo ∧
      ((started ⟨0, 0, 1103⟩).AudioInfo.AI_DACRATE_REG ≠ 0 →
        issued (started ⟨0, 0, 1103⟩) s1 = [Call.AI_SetFrequency firstDriver (standardize
          ((if SYSTEM_NTSC = SYSTEM_NTSC then 48681812
            else if SYSTEM_NTSC = SYSTEM_PAL then 49656530
            else 48628316) / ((started ⟨0, 0, 1103⟩).AudioInfo.AI_DACRATE_REG + 1)))] ∧
        issued (started ⟨0, 0, 1103⟩) s2 = issued (started ⟨0, 0, 1103⟩) s1) ∧
      ((started ⟨0, 0, 1103⟩).AudioInfo.AI_DACRATE_REG = 0 →
        issued (started ⟨0, 0, 1103⟩) s2 = []) :=
  dacrate_twice_once true SYSTEM_NTSC (started ⟨0, 0, 1103⟩) firstDriver rfl rfl (by decide)
    (Or.inl rfl)

/-- C3, evaluated on the code: a driver is active, the last applied `Dacrate` is
`5` and the register holds `0x4005`, whose masked value is `5`; `AiDacrateChanged`
compares `Dacrate` with the unmasked register, does not return early and calls
`AI_SetFrequency` again. -/
theorem dacrate_reserved_bits_reapplied :
    ∃ s s', rateFiveThenReserved = .ok s ∧ s.snd = some firstDriver ∧ s.Dacrate = 5 ∧
      s.AudioInfo.AI_DACRATE_REG &&& 0x3FFF = s.Dacrate ∧
      AiDacrateChanged true SYSTEM_NTSC s = .ok s' ∧
      issued s s' = [Call.AI_SetFrequency firstDriver 8113635] ∧ s'.Dacrate = 5 :=
  ⟨_, _, rfl, rfl, rfl, by decide, rfl, by decide, rfl⟩

/-! ## The frequency standardisation step -/

/-- C4: `standardize` sends every frequency strictly inside one of the seven
windows to that window's rate and every other frequency, the window endpoints
included, to itself. -/
theorem standardize_table (x : Nat) :
    ((7000 < x ∧ x < 9000) → standardize x = 8000) ∧
    ((10000 < x ∧ x < 12000) → standardize x = 11025) ∧
    ((18000 < x ∧ x < 20000) → standardize x = 19000) ∧
    ((21000 < x ∧ x < 23000) → standardize x = 22050) ∧
    ((31000 < x ∧ x < 33000) → standardize x = 32000) ∧
    ((43000 < x ∧ x < 45000) → standardize x = 44100) ∧
    ((47000 < x ∧ x < 49000) → standardize x = 48000) ∧
    (¬ (7000 < x ∧ x < 9000) → ¬ (10000 < x ∧ x < 12000) → ¬ (18000 < x ∧ x < 20000) →
      ¬ (21000 < x ∧ x < 23000) → ¬ (31000 < x ∧ x < 33000) → ¬ (43000 < x ∧ x < 45000) →
      ¬ (47000 < x ∧ x < 49000) → standardize x = x) ∧
    standardize 8200 = 8000 ∧ standardize 11000 = 11025 ∧ standardize 44200 = 44100 ∧
    standardize 15000 = 15000 ∧ standardize 7000 = 7000 ∧ standardize 9000 = 9000 := by
  refine ⟨?_, ?_, ?_, ?_, ?_, ?_, ?_, ?_, by decide, by decide, by decide, by decide,
    by decide, by decide⟩
  all_goals (intros; unfold standardize; split_ifs <;> omega)

theorem standardize_table_witness :
    standardize 7001 = 8000 ∧ standardize 12000 = 12000 :=
  ⟨(standardize_table 7001).1 ⟨by decide, by decide⟩,
    (standardize_table 12000).2.2.2.2.2.2.2.1 (by decide) (by decide) (by decide) (by decide)
      (by decide) (by decide) (by decide)⟩

/-- C5: `standardize` is idempotent on every frequency. -/
theorem standardize_idempotent (x : Nat) : standardize (standardize x) = standardize x := by
  rcases standardize_fixed_or_rate x with h | h | h | h | h | h | h | h
  · rw [h]
    exact h
  all_goals (rw [h]; decide)

/-! ## The length-change handler and the delayed carry -/

/-- C6: take two `AiLenChanged` calls with a driver active and only register
writes, length reads and update ticks between them.  Let `A` be the address the
first call forwards (masked register plus `0x2000` if the carry was set) and `L`
its masked length.  The second call forwards the address `A' + 0x2000` if
`(A + L) & 0x1FFF = 0` and `A'` otherwise, where `A'` is the address register at
the second call masked with `0x00FFFFF8`; the length it forwards is the length
register masked with `0x3FFF8`. -/
theorem len_changed_carry (s : State) (d : Driver) (between : List RegisterEvent)
    (hsnd : s.snd = some d) :
    issued s (AiLenChanged s) =
      [Call.AI_LenChanged d
        ((s.AudioInfo.AI_DRAM_ADDR_REG &&& 0x00FFFFF8) +
          (if s.ai_delayed_carry then 0x2000 else 0))
        (s.AudioInfo.AI_LEN_REG &&& 0x3FFF8)] ∧
    issued (runRegisterEvents between (AiLenChanged s))
        (AiLenChanged (runRegisterEvents between (AiLenChanged s))) =
      [Call.AI_LenChanged d
        (if (((s.AudioInfo.AI_DRAM_ADDR_REG &&& 0x00FFFFF8) +
              (if s.ai_delayed_carry then 0x2000 else 0)) +
            (s.AudioInfo.AI_LEN_REG &&& 0x3FFF8)) &&& 0x1FFF = 0
          then ((runRegisterEvents between (AiLenChanged s)).AudioInfo.AI_DRAM_ADDR_REG
            &&& 0x00FFFFF8) + 0x2000
          else (runRegisterEvents between (AiLenChanged s)).AudioInfo.AI_DRAM_ADDR_REG
            &&& 0x00FFFFF8)
        ((runRegisterEvents between (AiLenChanged s)).AudioInfo.AI_LEN_REG &&& 0x3FFF8)] := by
  obtain ⟨f1, f2, -⟩ := runRegisterEvents_frame between (AiLenChanged s)
  have e1 := AiLenChanged_active s d hsnd
  have hsnd1 : (AiLenChanged s).snd = some d := by rw [e1]; exact hsnd
  have hc1 : (AiLenChanged s).ai_delayed_carry = decide
      ((((s.AudioInfo.AI_DRAM_ADDR_REG &&& 0x00FFFFF8) +
          (if s.ai_delayed_carry then 0x2000 else 0)) +
        (s.AudioInfo.AI_LEN_REG &&& 0x3FFF8)) &&& 0x1FFF = 0) := by rw [e1]
  have e2 := AiLenChanged_active (runRegisterEvents between (AiLenChanged s)) d
    (f1.trans hsnd1)
  refine ⟨issued_append _ _ _ (by rw [e1]), issued_append _ _ _ ?_⟩
  rw [e2, f2, hc1]
  by_cases hz : (((s.AudioInfo.AI_DRAM_ADDR_REG &&& 0x00FFFFF8) +
          (if s.ai_delayed_carry then 0x2000 else 0)) +
        (s.AudioInfo.AI_LEN_REG &&& 0x3FFF8)) &&& 0x1FFF = 0
  · simp [hz]
  · simp [hz]

theorem len_changed_carry_witness :
    issued (started ⟨0x1000, 0x1000, 0⟩) (AiLenChanged (started ⟨0x1000, 0x1000, 0⟩)) =
      [Call.AI_LenChanged firstDriver
        (((started ⟨0x1000, 0x1000, 0⟩).AudioInfo.AI_DRAM_ADDR_REG &&& 0x00FFFFF8) +
          (if (started ⟨0x1000, 0x1000, 0⟩).ai_delayed_carry then 0x2000 else 0))
        ((started ⟨0x1000, 0x1000, 0⟩).AudioInfo.AI_LEN_REG &&& 0x3FFF8)] ∧
    issued (runRegisterEvents [RegisterEvent.write ⟨0x4000, 0x800, 0⟩]
          (AiLenChanged (started ⟨0x1000, 0x1000, 0⟩)))
        (AiLenChanged (runRegisterEvents [RegisterEvent.write ⟨0x4000, 0x800, 0⟩]
          (AiLenChanged (started ⟨0x1000, 0x1000, 0⟩)))) =
      [Call.AI_LenChanged firstDriver
        (if ((((started ⟨0x1000, 0x1000, 0⟩).AudioInfo.AI_DRAM_ADDR_REG &&& 0x00FFFFF8) +
              (if (started ⟨0x1000, 0x1000, 0⟩).ai_delayed_carry then 0x2000 else 0)) +
            ((started ⟨0x1000, 0x1000, 0⟩).AudioInfo.AI_LEN_REG &&& 0x3FFF8)) &&& 0x1FFF = 0
          then ((runRegisterEvents [RegisterEvent.write ⟨0x4000, 0x800, 0⟩]
            (AiLenChanged (started ⟨0x1000, 0x1000, 0⟩))).AudioInfo.AI_DRAM_ADDR_REG
            &&& 0x00FFFFF8) + 0x2000
          else (runRegisterEvents [RegisterEvent.write ⟨0x4000, 0x800, 0⟩]
            (AiLenChanged (started ⟨0x1000, 0x1000, 0⟩))).AudioInfo.AI_DRAM_ADDR_REG
            &&& 0x00FFFFF8)
        ((runRegisterEvents [RegisterEvent.write ⟨0x4000, 0x800, 0⟩]
          (AiLenChanged (started ⟨0x1000, 0x1000, 0⟩))).AudioInfo.AI_LEN_REG &&& 0x3FFF8)] :=
  len_changed_carry (started ⟨0x1000, 0x1000, 0⟩) firstDriver
    [RegisterEvent.write ⟨0x4000, 0x800, 0⟩] rfl

/-- C7: `AiDacrateChanged` returns whenever the timing standard is recognised or
assertions are compiled out or the early-return paths are taken, and every
state it returns has `ai_delayed_carry = false`, on the no-driver path and the
unchanged-rate path too; the next `AiLenChanged` (after any register writes,
length reads and update ticks) then forwards the masked address register with
no `0x2000` added. -/
theorem dacrate_changed_clears_carry (NDEBUG : Bool) (t : Int) (s : State) :
    ((NDEBUG = true ∨ t = SYSTEM_NTSC ∨ t = SYSTEM_PAL ∨ t = SYSTEM_MPAL ∨ s.snd = none ∨
        s.Dacrate = s.AudioInfo.AI_DACRATE_REG) →
      ∃ s', AiDacrateChanged NDEBUG t s = .ok s') ∧
    ∀ s', AiDacrateChanged NDEBUG t s = .ok s' →
      s'.ai_delayed_carry = false ∧
      ∀ (between : List RegisterEvent) (d : Driver), s'.snd = some d →
        issued (runRegisterEvents between s') (AiLenChanged (runRegisterEvents between s')) =
          [Call.AI_LenChanged d
            ((runRegisterEvents between s').AudioInfo.AI_DRAM_ADDR_REG &&& 0x00FFFFF8)
            ((runRegisterEvents between s').AudioInfo.AI_LEN_REG &&& 0x3FFF8)] := by
  have key : ∀ s', AiDacrateChanged NDEBUG t s = .ok s' → s'.ai_delayed_carry = false := by
    intro s' h
    unfold AiDacrateChanged at h
    simp only at h
    split at h
    · cases h; rfl
    · split at h
      · cases h; rfl
      · split at h
        · cases h
        · cases h; rfl
  refine ⟨?_, fun s' h => ⟨key s' h, ?_⟩⟩
  · intro hret
    cases hs : s.snd with
    | none => exact ⟨_, AiDacrateChanged_inactive NDEBUG t s hs⟩
    | some d =>
      by_cases hd : s.Dacrate = s.AudioInfo.AI_DACRATE_REG
      · exact ⟨_, AiDacrateChanged_same NDEBUG t s d hs hd⟩
      · have hrec : NDEBUG = true ∨ t = SYSTEM_NTSC ∨ t = SYSTEM_PAL ∨ t = SYSTEM_MPAL := by
          rcases hret with h | h | h | h | h | h
          · exact Or.inl h
          · exact Or.inr (Or.inl h)
          · exact Or.inr (Or.inr (Or.inl h))
          · exact Or.inr (Or.inr (Or.inr h))
          · rw [hs] at h; cases h
          · exact absurd h hd
        obtain ⟨c, hc⟩ := video_clock_returns NDEBUG t hrec
        exact ⟨_, AiDacrateChanged_changed NDEBUG t s d c hs hd hc⟩
  · intro between d hd
    obtain ⟨f1, f2, -⟩ := runRegisterEvents_frame between s'
    have e := AiLenChanged_active (runRegisterEvents between s') d (f1.trans hd)
    refine issued_append _ _ _ ?_
    rw [e, f2, key s' h]
    simp

theorem dacrate_changed_clears_carry_witness :
    (AiLenChanged (started ⟨0x1000, 0x1000, 1103⟩)).ai_delayed_carry = true ∧
    ∃ s', AiDacrateChanged false SYSTEM_MPAL (AiLenChanged (started ⟨0x1000, 0x1000, 1103⟩))
        = .ok s' ∧ s'.ai_delayed_carry = false :=
  ⟨by decide,
    ((dacrate_changed_clears_carry false SYSTEM_MPAL
        (AiLenChanged (started ⟨0x1000, 0x1000, 1103⟩))).1
        (Or.inr (Or.inr (Or.inr (Or.inl rfl))))).elim
      fun s' h => ⟨s', h,
        ((dacrate_changed_clears_carry false SYSTEM_MPAL
          (AiLenChanged (started ⟨0x1000, 0x1000, 1103⟩))).2 s' h).1⟩⟩

/-! ## Register events without and with a driver -/

/-- With a register view stored and no driver (`snd = NULL`) each of
`AiDacrateChanged`, `AiLenChanged`, `AiReadLength` and `AiUpdate` returns, makes
no call at all and leaves `Dacrate` as it was; `AiReadLength` returns `0` and
leaves the length register as it was. -/
theorem register_events_without_driver (NDEBUG : Bool) (t : Int) (reported : Nat) (Wait : Bool)
    (s : State) (hsnd : s.snd = none) :
    (∃ s', AiDacrateChanged NDEBUG t s = .ok s' ∧ issued s s' = [] ∧
      s'.Dacrate = s.Dacrate ∧ s'.snd = none) ∧
    (issued s (AiLenChanged s) = [] ∧ (AiLenChanged s).Dacrate = s.Dacrate ∧
      (AiLenChanged s).snd = none) ∧
    ((AiReadLength reported s).1 = 0 ∧ issued s (AiReadLength reported s).2 = [] ∧
      (AiReadLength reported s).2.AudioInfo.AI_LEN_REG = s.AudioInfo.AI_LEN_REG ∧
      (AiReadLength reported s).2.Dacrate = s.Dacrate ∧ (AiReadLength reported s).2.snd = none) ∧
    (issued s (AiUpdate Wait s) = [] ∧ (AiUpdate Wait s).Dacrate = s.Dacrate ∧
      (AiUpdate Wait s).snd = none) := by
  have e2 : AiLenChanged s = s := by simp [AiLenChanged, hsnd]
  have e3 : AiReadLength reported s = (0, s) := by simp [AiReadLength, hsnd]
  have e4 : AiUpdate Wait s = s := by simp [AiUpdate, hsnd]
  rw [e2, e3, e4]
  refine ⟨⟨_, AiDacrateChanged_inactive NDEBUG t s hsnd, issued_append _ _ _ (by simp), rfl,
    hsnd⟩, ⟨issued_self s, rfl, hsnd⟩, ⟨rfl, issued_self s, rfl, rfl, hsnd⟩,
    ⟨issued_self s, rfl, hsnd⟩⟩

/-- With no driver, `AiLenChanged` on the process returns exactly when a register
view is stored, and then changes nothing; the other three register events
return whether or not a view is stored. -/
theorem Plugin.no_driver_register_events (NDEBUG : Bool) (t : Int) (reported : Nat)
    (Wait : Bool) (p : Plugin) (hsnd : p.globals.snd = none) :
    (p.viewStored = true → Plugin.AiLenChanged p = .ok p) ∧
    (p.viewStored = false → Plugin.AiLenChanged p = .error Fault.nullDereference) ∧
    Plugin.AiDacrateChanged NDEBUG t p =
      .ok { p with globals := { p.globals with ai_delayed_carry := false } } ∧
    Plugin.AiReadLength reported p = .ok (0, p) ∧
    Plugin.AiUpdate Wait p = p := by
  have e2 : AziAudio.AiLenChanged p.globals = p.globals := by simp [AziAudio.AiLenChanged, hsnd]
  have e4 : AziAudio.AiUpdate Wait p.globals = p.globals := by simp [AziAudio.AiUpdate, hsnd]
  refine ⟨?_, ?_, ?_, ?_, ?_⟩
  · intro h
    obtain ⟨v, g⟩ := p
    simp only at h e2
    subst h
    simp [Plugin.AiLenChanged, e2]
  · intro h
    simp [Plugin.AiLenChanged, h]
  · simp only [Plugin.AiDacrateChanged, hsnd, AiDacrateChanged_inactive NDEBUG t p.globals hsnd]
    rfl
  · simp only [Plugin.AiReadLength, hsnd]
  · simp [Plugin.AiUpdate, e4]

/-- C8, evaluated on the code: right after the library is loaded no driver is
active and the register pointers of the zero-initialised `AudioInfo` are
`NULL`.  `AiLenChanged` reads both registers before its `snd == NULL` check and
does not return, while `AiDacrateChanged`, `AiReadLength` and `AiUpdate`, which
check `snd` first, return without a call. -/
theorem len_changed_before_initiate :
    (Plugin.atLoad 0).globals.snd = none ∧ (Plugin.atLoad 0).viewStored = false ∧
    Plugin.AiLenChanged (Plugin.atLoad 0) = .error Fault.nullDereference ∧
    Plugin.AiDacrateChanged false SYSTEM_NTSC (Plugin.atLoad 0) = .ok (Plugin.atLoad 0) ∧
    Plugin.AiReadLength 99 (Plugin.atLoad 0) = .ok (0, Plugin.atLoad 0) ∧
    Plugin.AiUpdate true (Plugin.atLoad 0) = Plugin.atLoad 0 :=
  ⟨rfl, rfl, rfl, rfl, rfl, rfl⟩

/-- C9: with a driver active whose `AI_ReadLength` reports `v`, `AiReadLength`
returns `v`, the length register holds `v` afterwards, the only call made is
that `AI_ReadLength`, and the address register, the DAC-rate register, `Dacrate`
and `ai_delayed_carry` are unchanged. -/
theorem read_length_with_driver (v : Nat) (s : State) (d : Driver) (hsnd : s.snd = some d) :
    (AiReadLength v s).1 = v ∧
    (AiReadLength v s).2.AudioInfo.AI_LEN_REG = v ∧
    issued s (AiReadLength v s).2 = [Call.AI_ReadLength d] ∧
    (AiReadLength v s).2.AudioInfo.AI_DRAM_ADDR_REG = s.AudioInfo.AI_DRAM_ADDR_REG ∧
    (AiReadLength v s).2.AudioInfo.AI_DACRATE_REG = s.AudioInfo.AI_DACRATE_REG ∧
    (AiReadLength v s).2.Dacrate = s.Dacrate ∧
    (AiReadLength v s).2.ai_delayed_carry = s.ai_delayed_carry ∧
    (AiReadLength v s).2.snd = s.snd := by
  have e : AiReadLength v s =
      (v, { s with AudioInfo := { s.AudioInfo with AI_LEN_REG := v },
                   trace := s.trace ++ [Call.AI_ReadLength d] }) := by
    simp [AiReadLength, hsnd]
  rw [e]
  exact ⟨rfl, rfl, issued_append _ _ _ rfl, rfl, rfl, rfl, rfl, rfl⟩

theorem read_length_with_driver_witness :
    (AiReadLength 0x1230 (AiLenChanged (started ⟨0x1000, 0x1000, 1103⟩))).1 = 0x1230 ∧
    (AiReadLength 0x1230 (AiLenChanged (started ⟨0x1000, 0x1000, 1103⟩))).2.ai_delayed_carry
      = true :=
  ⟨(read_length_with_driver 0x1230 (AiLenChanged (started ⟨0x1000, 0x1000, 1103⟩))
      firstDriver rfl).1,
    (read_length_with_driver 0x1230 (AiLenChanged (started ⟨0x1000, 0x1000, 1103⟩))
      firstDriver rfl).2.2.2.2.2.2.1.trans (by decide)⟩

/-! ## Closing a ROM -/

/-- C10, as stated, fails: after the configuration dialog selected another
driver and then the original one again, the configured selector equals the one
the active driver was created with, yet `RomClosed` shuts the driver down and
creates a new one instead of resetting it. -/
theorem rom_closed_same_selector_swaps :
    ¬ ∀ (s : State) (d : Driver) (loaded : SoundDriverType) (created : Bool),
      Reachable s → s.snd = some d → s.configDriver = d.kind → loaded = d.kind →
      ∃ s', RomClosed loaded created s = .ok s' ∧ Call.AI_ResetAudio d ∈ issued s s' ∧
        Call.AI_Shutdown d ∉ issued s s' ∧
        ∀ sel r, Call.CreateSoundDriver sel r ∉ issued s s' := by
  intro h
  have hreach : Reachable configToggledBack :=
    Reachable.DllConfig true 0 (Reachable.DllConfig true 1
      (Reachable.InitiateAudio ⟨0, 0, 0⟩ 0 true (Reachable.init ⟨0, 0, 0⟩ 0)))
  obtain ⟨s', h1, -, h3, -⟩ := h configToggledBack firstDriver 0 true hreach rfl rfl rfl
  have e : RomClosed 0 true configToggledBack = .ok
      { configToggledBack with
        snd := some ⟨1, 0⟩
        bBackendChanged := false
        nextId := 2
        trace := configToggledBack.trace ++ [Call.AI_Shutdown firstDriver,
          Call.Delete firstDriver, Call.CreateSoundDriver 0 (some ⟨1, 0⟩),
          Call.AI_Startup ⟨1, 0⟩] } := rfl
  rw [e] at h1
  cases h1
  exact h3 (by decide)

/-- C10, amended: with a driver `d` active, `RomClosed` is steered by the flag
`bBackendChanged`, not by a comparison of selectors.  With the flag clear it
returns after the single call `AI_ResetAudio` on `d` and keeps `d`.  With the
flag set and the factory yielding a driver it returns after exactly the calls
`AI_Shutdown d`, `delete d`, `CreateSoundDriver` with the configured selector,
`AI_Startup` on the new driver, in this order; the new driver is active and the
flag is clear. -/
theorem rom_closed_reset_or_swap (loaded : SoundDriverType) (s : State) (d : Driver)
    (hsnd : s.snd = some d) :
    (s.bBackendChanged = false →
      ∀ created, ∃ s', RomClosed loaded created s = .ok s' ∧
        issued s s' = [Call.AI_ResetAudio d] ∧ s'.snd = some d ∧
        s'.bBackendChanged = false) ∧
    (s.bBackendChanged = true →
      ∃ s', RomClosed loaded true s = .ok s' ∧
        issued s s' = [Call.AI_Shutdown d, Call.Delete d,
          Call.CreateSoundDriver loaded (some ⟨s.nextId, loaded⟩),
          Call.AI_Startup ⟨s.nextId, loaded⟩] ∧
        s'.snd = some ⟨s.nextId, loaded⟩ ∧ s'.bBackendChanged = false) := by
  constructor
  · intro hb created
    refine ⟨{ s with RomRunning := false, configDriver := loaded, Dacrate := 0,
                     trace := s.trace ++ [Call.AI_ResetAudio d] }, ?_,
      issued_append _ _ _ rfl, hsnd, hb⟩
    simp [RomClosed, LoadSettings, hsnd, hb]
  · intro hb
    refine ⟨{ s with RomRunning := false, configDriver := loaded, Dacrate := 0,
                     snd := some ⟨s.nextId, loaded⟩, nextId := s.nextId + 1,
                     bBackendChanged := false,
                     trace := s.trace ++ [Call.AI_Shutdown d, Call.Delete d,
                       Call.CreateSoundDriver loaded (some ⟨s.nextId, loaded⟩),
                       Call.AI_Startup ⟨s.nextId, loaded⟩] }, ?_,
      issued_append _ _ _ rfl, rfl, rfl⟩
    simp [RomClosed, LoadSettings, CreateSoundDriver, hsnd, hb]

theorem rom_closed_reset_or_swap_witness :
    (∃ s', RomClosed 0 false (started ⟨0, 0, 0⟩) = .ok s' ∧
      issued (started ⟨0, 0, 0⟩) s' = [Call.AI_ResetAudio firstDriver] ∧
      s'.snd = some firstDriver ∧ s'.bBackendChanged = false) ∧
    (∃ s', RomClosed 1 true (DllConfig true 1 (started ⟨0, 0, 0⟩)) = .ok s' ∧
      issued (DllConfig true 1 (started ⟨0, 0, 0⟩)) s' =
        [Call.AI_Shutdown firstDriver, Call.Delete firstDriver,
          Call.CreateSoundDriver 1 (some ⟨(DllConfig true 1 (started ⟨0, 0, 0⟩)).nextId, 1⟩),
          Call.AI_Startup ⟨(DllConfig true 1 (started ⟨0, 0, 0⟩)).nextId, 1⟩] ∧
      s'.snd = some ⟨(DllConfig true 1 (started ⟨0, 0, 0⟩)).nextId, 1⟩ ∧
      s'.bBackendChanged = false) :=
  ⟨(rom_closed_reset_or_swap 0 (started ⟨0, 0, 0⟩) firstDriver rfl).1 rfl false,
    (rom_closed_reset_or_swap 1 (DllConfig true 1 (started ⟨0, 0, 0⟩)) firstDriver rfl).2 rfl⟩

/-! ## The lifetime of driver objects -/

/-- C11: after every run of entry points from the load-time state in which the
factory yields a driver whenever it is asked, the factory has been called once
more often than `delete` if a driver is active and equally often otherwise; the
trace passes `checkTrace` (a driver is only made while none is live, only the
live driver is deleted) and ends with the active driver live; every `delete` of
a driver comes right after `AI_Shutdown` on that driver; and `InitiateAudio`
with a driver active makes exactly the calls `AI_Shutdown`, `delete`, factory,
`AI_Startup` in this order. -/
theorem one_live_driver (NDEBUG : Bool) (regs : AUDIO_INFO) (driver : SoundDriverType)
    (es : List Entry) (s' : State) (hc : ∀ e ∈ es, e.creationSucceeds = true)
    (hrun : runEntries NDEBUG es (State.init regs driver) = .ok s') :
    s'.trace.countP Call.isCreate =
      s'.trace.countP Call.isDelete + (if s'.snd.isSome then 1 else 0) ∧
    (∃ last, checkTrace (none, none) s'.trace = some (s'.snd, last)) ∧
    (∀ pre post d, s'.trace = pre ++ Call.Delete d :: post →
      ∃ pre', pre = pre' ++ [Call.AI_Shutdown d]) ∧
    (∀ d Audio_Info loaded, s'.snd = some d →
      issued s' (InitiateAudio Audio_Info loaded true s').2 =
        [Call.AI_Shutdown d, Call.Delete d,
          Call.CreateSoundDriver loaded (some ⟨s'.nextId, loaded⟩),
          Call.AI_Startup ⟨s'.nextId, loaded⟩]) := by
  have hinv := runEntries_lifecycle NDEBUG es _ s' hc hrun (Lifecycle_init regs driver)
  obtain ⟨h1, last, h2⟩ := hinv
  refine ⟨h1, ⟨last, h2⟩, ?_, ?_⟩
  · intro pre post d hsplit
    exact checkTrace_delete_after_shutdown s'.trace pre post d _ h2 hsplit
  · intro d Audio_Info loaded hd
    rw [InitiateAudio_created]
    exact issued_append _ _ _ (by simp [hd])

theorem one_live_driver_witness :
    ∃ s', runEntries false sampleRun (State.init ⟨0, 0, 0⟩ 0) = .ok s' ∧
      s'.snd = some ⟨2, 1⟩ ∧
      s'.trace.countP Call.isCreate =
        s'.trace.countP Call.isDelete + (if s'.snd.isSome then 1 else 0) ∧
      (∃ last, checkTrace (none, none) s'.trace = some (s'.snd, last)) :=
  ⟨_, rfl, rfl,
    (one_live_driver false ⟨0, 0, 0⟩ 0 sampleRun _ (by decide) rfl).1,
    (one_live_driver false ⟨0, 0, 0⟩ 0 sampleRun _ (by decide) rfl).2.1⟩

/-- C12: `InitiateAudio` returns `FALSE` exactly when the factory yields no
driver.  In that case the register view is stored all the same, no driver is
active and no `AI_Startup` is called.  Otherwise exactly one `AI_Startup` is
called, on the new driver, which is active, and `ai_delayed_carry` is false. -/
theorem initiate_result (Audio_Info : AUDIO_INFO) (loaded : SoundDriverType) (created : Bool)
    (s : State) :
    ((InitiateAudio Audio_Info loaded created s).1 = false ↔ created = false) ∧
    (created = false →
      (InitiateAudio Audio_Info loaded created s).2.AudioInfo = Audio_Info ∧
      (InitiateAudio Audio_Info loaded created s).2.snd = none ∧
      (issued s (InitiateAudio Audio_Info loaded created s).2).filter Call.isStartup = []) ∧
    (created = true →
      (InitiateAudio Audio_Info loaded created s).2.AudioInfo = Audio_Info ∧
      (InitiateAudio Audio_Info loaded created s).2.snd = some ⟨s.nextId, loaded⟩ ∧
      (issued s (InitiateAudio Audio_Info loaded created s).2).filter Call.isStartup =
        [Call.AI_Startup ⟨s.nextId, loaded⟩] ∧
      (InitiateAudio Audio_Info loaded created s).2.ai_delayed_carry = false) := by
  cases created with
  | false =>
    rw [InitiateAudio_failed]
    refine ⟨by simp, fun _ => ⟨rfl, rfl, ?_⟩, fun h => Bool.noConfusion h⟩
    rw [issued_append _ _ _ rfl]
    cases s.snd <;> simp [Call.isStartup]
  | true =>
    rw [InitiateAudio_created]
    refine ⟨by simp, fun h => Bool.noConfusion h, fun _ => ⟨rfl, rfl, ?_, rfl⟩⟩
    rw [issued_append _ _ _ rfl]
    cases s.snd <;> simp [Call.isStartup]

theorem initiate_result_witness :
    (InitiateAudio ⟨8, 16, 1103⟩ 3 false (started ⟨0, 0, 0⟩)).2.AudioInfo = ⟨8, 16, 1103⟩ ∧
    (InitiateAudio ⟨8, 16, 1103⟩ 3 false (started ⟨0, 0, 0⟩)).2.snd = none ∧
    (issued (started ⟨0, 0, 0⟩)
      (InitiateAudio ⟨8, 16, 1103⟩ 3 false (started ⟨0, 0, 0⟩)).2).filter Call.isStartup = [] :=
  (initiate_result ⟨8, 16, 1103⟩ 3 false (started ⟨0, 0, 0⟩)).2.1 rfl

/-- C13, evaluated on the code: a driver is active, `bBackendChanged` is set and
the factory yields `NULL` in `RomClosed`; the function goes on to
`snd->AI_Startup()` through the null pointer and does not return. -/
theorem rom_closed_creation_fails :
    Reachable swapPending ∧ swapPending.snd = some firstDriver ∧
      swapPending.bBackendChanged = true ∧
      RomClosed 1 false swapPending = .error Fault.nullDereference :=
  ⟨Reachable.DllConfig true 1
      (Reachable.InitiateAudio ⟨0, 0, 0⟩ 0 true (Reachable.init ⟨0, 0, 0⟩ 0)),
    rfl, rfl, rfl⟩

/-! ## Closing the plugin and the stored rate -/

/-- C14, as stated, fails: after rate `1103` was applied, `CloseDLL` leaves
`Dacrate = 1103`; the next `InitiateAudio` makes a new driver, and the first
`AiDacrateChanged` with the register still at `1103` returns without any call,
so the new driver gets no `AI_SetFrequency`. -/
theorem close_leaves_dacrate :
    ∃ s s', rateApplied = .ok s ∧ s.Dacrate = 1103 ∧ (CloseDLL s).Dacrate = 1103 ∧
      (InitiateAudio ⟨0, 0, 1103⟩ 0 true (CloseDLL s)).1 = true ∧
      AiDacrateChanged true SYSTEM_NTSC (InitiateAudio ⟨0, 0, 1103⟩ 0 true (CloseDLL s)).2
        = .ok s' ∧
      issued (InitiateAudio ⟨0, 0, 1103⟩ 0 true (CloseDLL s)).2 s' = [] :=
  ⟨_, _, rfl, rfl, rfl, rfl, rfl, by decide⟩

/-- C14, amended: `CloseDLL` and the following successful `InitiateAudio` leave
`Dacrate` as it was; it is `RomClosed` that sets it to `0`.  After close and a
successful start, the first `AiDacrateChanged` with a recognised timing standard
returns; it makes no call if `Dacrate`, as it was before the close, equals the
register, and exactly one `AI_SetFrequency` call on the new driver otherwise. -/
theorem dacrate_after_close (NDEBUG : Bool) (t : Int) (s : State) (Audio_Info : AUDIO_INFO)
    (loaded : SoundDriverType)
    (ht : t = SYSTEM_NTSC ∨ t = SYSTEM_PAL ∨ t = SYSTEM_MPAL) :
    (CloseDLL s).Dacrate = s.Dacrate ∧
    (InitiateAudio Audio_Info loaded true (CloseDLL s)).2.Dacrate = s.Dacrate ∧
    (∀ loaded' created s₁, RomClosed loaded' created s = .ok s₁ → s₁.Dacrate = 0) ∧
    ∃ s', AiDacrateChanged NDEBUG t (InitiateAudio Audio_Info loaded true (CloseDLL s)).2
        = .ok s' ∧
      (s.Dacrate = Audio_Info.AI_DACRATE_REG →
        issued (InitiateAudio Audio_Info loaded true (CloseDLL s)).2 s' = []) ∧
      (s.Dacrate ≠ Audio_Info.AI_DACRATE_REG →
        issued (InitiateAudio Audio_Info loaded true (CloseDLL s)).2 s' =
          [Call.AI_SetFrequency ⟨s.nextId, loaded⟩ (standardize
            ((if t = SYSTEM_NTSC then 48681812 else if t = SYSTEM_PAL then 49656530
              else 48628316) / ((Audio_Info.AI_DACRATE_REG &&& 0x3FFF) + 1)))]) := by
  obtain ⟨c1, -, c3, -⟩ := CloseDLL_frame s
  have hd : (InitiateAudio Audio_Info loaded true (CloseDLL s)).2.Dacrate = s.Dacrate := by
    rw [InitiateAudio_created]
    exact c1
  have hsnd : (InitiateAudio Audio_Info loaded true (CloseDLL s)).2.snd =
      some ⟨s.nextId, loaded⟩ := by
    rw [InitiateAudio_created, c3]
  have hreg : (InitiateAudio Audio_Info loaded true (CloseDLL s)).2.AudioInfo = Audio_Info := by
    rw [InitiateAudio_created]
  refine ⟨c1, hd, fun loaded' created s₁ h => (RomClosed_frame loaded' created s s₁ h).2, ?_⟩
  by_cases heq : s.Dacrate = Audio_Info.AI_DACRATE_REG
  · refine ⟨_, AiDacrateChanged_same NDEBUG t _ _ hsnd (by rw [hd, hreg]; exact heq), ?_, ?_⟩
    · intro _
      exact issued_append _ _ _ (by simp)
    · intro h
      exact absurd heq h
  · have hv : video_clock NDEBUG t = .ok (if t = SYSTEM_NTSC then 48681812
        else if t = SYSTEM_PAL then 49656530 else 48628316) := by
      rcases ht with rfl | rfl | rfl <;> rfl
    refine ⟨_, AiDacrateChanged_changed NDEBUG t _ _ _ hsnd (by rw [hd, hreg]; exact heq) hv,
      ?_, ?_⟩
    · intro h
      exact absurd h heq
    · intro _
      exact issued_append _ _ _ (by rw [hreg])

theorem dacrate_after_close_witness :
    (CloseDLL carrySet).Dacrate = carrySet.Dacrate ∧
    (InitiateAudio ⟨0, 0, 1103⟩ 4 true (CloseDLL carrySet)).2.Dacrate = carrySet.Dacrate :=
  ⟨(dacrate_after_close true SYSTEM_PAL carrySet ⟨0, 0, 1103⟩ 4 (Or.inr (Or.inl rfl))).1,
    (dacrate_after_close true SYSTEM_PAL carrySet ⟨0, 0, 1103⟩ 4 (Or.inr (Or.inl rfl))).2.1⟩

/-! ## The audio list -/

/-- C15, as stated, fails: right after `InitiateAudio`, before any `RomOpen`,
`RomRunning` is false and a driver is active, and `ProcessAList` calls
`HLEStart`. -/
theorem process_alist_before_rom_open :
    ¬ ∀ (loaded : SoundDriverType) (s : State),
      (Call.HLEStart ∈ issued s (ProcessAList loaded s) ↔
        s.RomRunning = true ∧ s.snd.isSome = true) := by
  intro h
  have h1 := (h 0 (started ⟨0, 0, 0⟩)).1 (by decide)
  exact absurd h1.1 (by decide)

/-- C15, amended: `ProcessAList` sets `RomRunning` itself and then calls
`HLEStart` exactly when a driver is active, whatever `RomRunning` was before;
it makes no other call. -/
theorem process_alist_gate (loaded : SoundDriverType) (s : State) :
    issued s (ProcessAList loaded s) = (if s.snd.isSome then [Call.HLEStart] else []) ∧
    (Call.HLEStart ∈ issued s (ProcessAList loaded s) ↔ s.snd.isSome = true) ∧
    (ProcessAList loaded s).RomRunning = true := by
  obtain ⟨h1, h2, -, -⟩ := ProcessAList_eq loaded s
  have hi := issued_append _ _ _ h1
  refine ⟨hi, ?_, h2⟩
  rw [hi]
  cases s.snd <;> simp

/-! ## Unrecognised timing standards -/

/-- C16, as stated, fails: in a build with `NDEBUG` the `assert` is compiled out;
with timing standard `3`, a driver active and a changed rate, `AiDacrateChanged`
returns instead of failing. -/
theorem unrecognised_timing_returns :
    ¬ ∀ (NDEBUG : Bool) (t : Int) (s : State) (d : Driver),
      s.snd = some d → s.Dacrate ≠ s.AudioInfo.AI_DACRATE_REG →
      t ≠ SYSTEM_NTSC → t ≠ SYSTEM_PAL → t ≠ SYSTEM_MPAL →
      AiDacrateChanged NDEBUG t s = .error Fault.assertion := by
  intro h
  have h1 := h true 3 (started ⟨0, 0, 1103⟩) firstDriver rfl (by decide) (by decide)
    (by decide) (by decide)
  have e : AiDacrateChanged true 3 (started ⟨0, 0, 1103⟩) =
      .ok { started ⟨0, 0, 1103⟩ with
        Dacrate := 1103
        trace := (started ⟨0, 0, 1103⟩).trace ++ [Call.AI_SetFrequency firstDriver 44100] } := rfl
  rw [e] at h1
  cases h1

/-- C16, amended: for a timing standard other than the three recognised ones,
with a driver active and a changed rate, `AiDacrateChanged` fails on the
assertion in a build without `NDEBUG` and forwards nothing; in a build with
`NDEBUG` it falls through to the NTSC case, returns, and forwards
`standardize (48681812 / ((r & 0x3FFF) + 1))` in one `AI_SetFrequency` call. -/
theorem unrecognised_timing (t : Int) (s : State) (d : Driver) (hsnd : s.snd = some d)
    (hne : s.Dacrate ≠ s.AudioInfo.AI_DACRATE_REG)
    (h1 : t ≠ SYSTEM_NTSC) (h2 : t ≠ SYSTEM_PAL) (h3 : t ≠ SYSTEM_MPAL) :
    AiDacrateChanged false t s = .error Fault.assertion ∧
    ∃ s', AiDacrateChanged true t s = .ok s' ∧
      issued s s' = [Call.AI_SetFrequency d
        (standardize (48681812 / ((s.AudioInfo.AI_DACRATE_REG &&& 0x3FFF) + 1)))] ∧
      s'.Dacrate = s.AudioInfo.AI_DACRATE_REG &&& 0x3FFF := by
  constructor
  · simp [AiDacrateChanged, hsnd, hne, video_clock_unrecognised false t h1 h2 h3]
  · exact ⟨_, AiDacrateChanged_changed true t s d 48681812 hsnd hne
        (video_clock_unrecognised true t h1 h2 h3), issued_append _ _ _ rfl, rfl⟩

theorem unrecognised_timing_witness :
    AiDacrateChanged false (-1) (started ⟨0, 0, 1103⟩) = .error Fault.assertion ∧
    ∃ s', AiDacrateChanged true (-1) (started ⟨0, 0, 1103⟩) = .ok s' ∧
      issued (started ⟨0, 0, 1103⟩) s' = [Call.AI_SetFrequency firstDriver
        (standardize (48681812 /
          (((started ⟨0, 0, 1103⟩).AudioInfo.AI_DACRATE_REG &&& 0x3FFF) + 1)))] ∧
      s'.Dacrate = (started ⟨0, 0, 1103⟩).AudioInfo.AI_DACRATE_REG &&& 0x3FFF :=
  unrecognised_timing (-1) (started ⟨0, 0, 1103⟩) firstDriver rfl (by decide) (by decide)
    (by decide) (by decide)

/-! ## Who writes the delayed carry -/

/-- C17, as stated, fails: with `ai_delayed_carry` set, `AiDacrateChanged` returns
a state in which it is clear. -/
theorem dacrate_changed_writes_carry :
    ¬ ∀ (NDEBUG : Bool) (t : Int) (s s' : State),
      AiDacrateChanged NDEBUG t s = .ok s' → s'.ai_delayed_carry = s.ai_delayed_carry := by
  intro h
  have e : AiDacrateChanged true SYSTEM_NTSC carrySet =
      .ok { carrySet with
        ai_delayed_carry := false
        Dacrate := 1103
        trace := carrySet.trace ++ [Call.AI_SetFrequency firstDriver 44100] } := rfl
  exact absurd (h true SYSTEM_NTSC carrySet _ e) (by decide)

/-- C17, amended: besides `AiLenChanged`, two entry points write
`ai_delayed_carry`: `AiDacrateChanged` clears it on every call that returns and
`InitiateAudio` clears it when the factory yields a driver.  `CloseDLL`,
`RomOpen`, `RomClosed`, `ProcessAList`, `AiReadLength`, `AiUpdate`, `DllConfig`
and an `InitiateAudio` that fails leave it as it was. -/
theorem carry_writers (NDEBUG : Bool) (t : Int) (Audio_Info : AUDIO_INFO)
    (loaded : SoundDriverType) (created hasDialog Wait : Bool) (reported : Nat) (s : State) :
    (CloseDLL s).ai_delayed_carry = s.ai_delayed_carry ∧
    (RomOpen loaded s).ai_delayed_carry = s.ai_delayed_carry ∧
    (∀ s', RomClosed loaded created s = .ok s' → s'.ai_delayed_carry = s.ai_delayed_carry) ∧
    (∃ s', RomClosed loaded true s = .ok s' ∧ s'.ai_delayed_carry = s.ai_delayed_carry) ∧
    (ProcessAList loaded s).ai_delayed_carry = s.ai_delayed_carry ∧
    (AiReadLength reported s).2.ai_delayed_carry = s.ai_delayed_carry ∧
    (AiUpdate Wait s).ai_delayed_carry = s.ai_delayed_carry ∧
    (DllConfig hasDialog loaded s).ai_delayed_carry = s.ai_delayed_carry ∧
    (InitiateAudio Audio_Info loaded false s).2.ai_delayed_carry = s.ai_delayed_carry ∧
    (InitiateAudio Audio_Info loaded true s).2.ai_delayed_carry = false ∧
    (∀ s', AiDacrateChanged NDEBUG t s = .ok s' → s'.ai_delayed_carry = false) := by
  refine ⟨(CloseDLL_frame s).2.1, rfl,
    fun s' h => (RomClosed_frame loaded created s s' h).1, ?_,
    (ProcessAList_eq loaded s).2.2.1,
    ((RegisterEvent.readLength reported).run_frame s).2.1,
    ((RegisterEvent.update Wait).run_frame s).2.1,
    (DllConfig_frame hasDialog loaded s).2.2.1, ?_, ?_, ?_⟩
  · obtain ⟨s', h⟩ := RomClosed_returns loaded s
    exact ⟨s', h, (RomClosed_frame loaded true s s' h).1⟩
  · rw [InitiateAudio_failed]
  · rw [InitiateAudio_created]
  · intro s' h
    cases hs : s.snd with
    | none =>
      rw [AiDacrateChanged_inactive NDEBUG t s hs] at h
      cases h
      rfl
    | some d =>
      by_cases heq : s.Dacrate = s.AudioInfo.AI_DACRATE_REG
      · rw [AiDacrateChanged_same NDEBUG t s d hs heq] at h
        cases h
        rfl
      · cases hv : video_clock NDEBUG t with
        | error err => simp [AiDacrateChanged, hs, heq, hv] at h
        | ok clock =>
          rw [AiDacrateChanged_changed NDEBUG t s d clock hs heq hv] at h
          cases h
          rfl

theorem carry_writers_witness :
    carrySet.ai_delayed_carry = true ∧
    (∃ s', RomClosed 0 true carrySet = .ok s' ∧ s'.ai_delayed_carry = carrySet.ai_delayed_carry) ∧
    (InitiateAudio ⟨0, 0, 0⟩ 0 true carrySet).2.ai_delayed_carry = false :=
  ⟨by decide,
    (carry_writers true SYSTEM_NTSC ⟨0, 0, 0⟩ 0 true true true 0 carrySet).2.2.2.1,
    (carry_writers true SYSTEM_NTSC ⟨0, 0, 0⟩ 0 true true true 0 carrySet).2.2.2.2.2.2.2.2.2.1⟩

/-! ## Standard rates are the nearest ones -/

/-- C18: for a frequency `x` strictly inside one of the seven windows, the result
of `standardize` is a rate of the table 8000, 11025, 19000, 22050, 32000,
44100, 48000, and it is at least as close to `x` as every rate of the table. -/
theorem standardize_nearest (x r : Nat)
    (hx : (7000 < x ∧ x < 9000) ∨ (10000 < x ∧ x < 12000) ∨ (18000 < x ∧ x < 20000) ∨
      (21000 < x ∧ x < 23000) ∨ (31000 < x ∧ x < 33000) ∨ (43000 < x ∧ x < 45000) ∨
      (47000 < x ∧ x < 49000))
    (hr : r ∈ [8000, 11025, 19000, 22050, 32000, 44100, 48000]) :
    standardize x ∈ [8000, 11025, 19000, 22050, 32000, 44100, 48000] ∧
    ((standardize x : Int) - x).natAbs ≤ ((r : Int) - x).natAbs := by
  simp only [List.mem_cons, List.mem_singleton, List.not_mem_nil, or_false] at hr
  constructor
  · unfold standardize
    split_ifs
    all_goals first
      | decide
      | (exfalso; omega)
  · unfold standardize
    split_ifs <;> omega

theorem standardize_nearest_witness :
    standardize 10001 ∈ [8000, 11025, 19000, 22050, 32000, 44100, 48000] ∧
    ((standardize 10001 : Int) - (10001 : Nat)).natAbs ≤
      (((8000 : Nat) : Int) - (10001 : Nat)).natAbs :=
  standardize_nearest 10001 8000 (Or.inr (Or.inl ⟨by decide, by decide⟩)) (by decide)

/-! ## The forwarded region -/

/-- C19: with a driver active, the `ai_delayed_carry` that `AiLenChanged` leaves
is true exactly when the masked address register plus the masked length
register has its low 13 bits clear; it is the same whether the call started
with the carry set (and added `0x2000` to the address) or clear. -/
theorem len_changed_carry_independent (s : State) (d : Driver) (hsnd : s.snd = some d) :
    ((AiLenChanged s).ai_delayed_carry = true ↔
      ((s.AudioInfo.AI_DRAM_ADDR_REG &&& 0x00FFFFF8) + (s.AudioInfo.AI_LEN_REG &&& 0x3FFF8))
        &&& 0x1FFF = 0) ∧
    (AiLenChanged { s with ai_delayed_carry := true }).ai_delayed_carry =
      (AiLenChanged { s with ai_delayed_carry := false }).ai_delayed_carry := by
  have key : ∀ c : Bool,
      (AiLenChanged { s with ai_delayed_carry := c }).ai_delayed_carry =
        decide (((s.AudioInfo.AI_DRAM_ADDR_REG &&& 0x00FFFFF8) +
          (s.AudioInfo.AI_LEN_REG &&& 0x3FFF8)) &&& 0x1FFF = 0) := by
    intro c
    rw [AiLenChanged_active { s with ai_delayed_carry := c } d hsnd]
    simp only [land_1FFF_eq_mod]
    cases c
    · simp
    · have hm : ((s.AudioInfo.AI_DRAM_ADDR_REG &&& 0x00FFFFF8) + 0x2000 +
          (s.AudioInfo.AI_LEN_REG &&& 0x3FFF8)) % 0x2000 =
          ((s.AudioInfo.AI_DRAM_ADDR_REG &&& 0x00FFFFF8) +
          (s.AudioInfo.AI_LEN_REG &&& 0x3FFF8)) % 0x2000 := by omega
      simp [hm]
  constructor
  · have h := key s.ai_delayed_carry
    have hs : ({ s with ai_delayed_carry := s.ai_delayed_carry } : State) = s := rfl
    rw [hs] at h
    rw [h]
    simp
  · rw [key true, key false]

theorem len_changed_carry_independent_witness :
    (carrySet.ai_delayed_carry = true ∧ (AiLenChanged carrySet).ai_delayed_carry = true) ∧
    (AiLenChanged { carrySet with ai_delayed_carry := true }).ai_delayed_carry =
      (AiLenChanged { carrySet with ai_delayed_carry := false }).ai_delayed_carry :=
  ⟨⟨by decide,
      (len_changed_carry_independent carrySet firstDriver rfl).1.2 (by decide)⟩,
    (len_changed_carry_independent carrySet firstDriver rfl).2⟩

/-- C20: with a driver active, for all register values and either carry state,
the call `AiLenChanged` forwards has an offset and a length that are multiples
of 8, the length is at most `0x3FFF8`, the offset at most
`0x00FFFFF8 + 0x2000`, the offset is the masked address plus `0x2000` or `0`
without reduction modulo `2 ^ 32`, and offset plus length stays below
`2 ^ 32`. -/
theorem len_changed_region (s : State) (d : Driver) (hsnd : s.snd = some d) :
    ∃ address length, issued s (AiLenChanged s) = [Call.AI_LenChanged d address length] ∧
      address = (s.AudioInfo.AI_DRAM_ADDR_REG &&& 0x00FFFFF8) +
        (if s.ai_delayed_carry then 0x2000 else 0) ∧
      length = s.AudioInfo.AI_LEN_REG &&& 0x3FFF8 ∧
      address % 8 = 0 ∧ length % 8 = 0 ∧ length ≤ 0x3FFF8 ∧
      address ≤ 0x00FFFFF8 + 0x2000 ∧
      (s.AudioInfo.AI_DRAM_ADDR_REG &&& 0x00FFFFF8) + 0x2000 < 2 ^ 32 ∧
      address + length < 2 ^ 32 := by
  have ha : s.AudioInfo.AI_DRAM_ADDR_REG &&& 0x00FFFFF8 ≤ 0x00FFFFF8 := Nat.and_le_right
  have hl : s.AudioInfo.AI_LEN_REG &&& 0x3FFF8 ≤ 0x3FFF8 := Nat.and_le_right
  have ha8 := land_mod_eight s.AudioInfo.AI_DRAM_ADDR_REG 0x00FFFFF8 (by decide)
  have hl8 := land_mod_eight s.AudioInfo.AI_LEN_REG 0x3FFF8 (by decide)
  refine ⟨_, _, issued_append _ _ _ (by rw [AiLenChanged_active s d hsnd]), rfl, rfl, ?_, hl8, hl,
    ?_, ?_, ?_⟩
  · cases s.ai_delayed_carry <;> simp <;> omega
  · cases s.ai_delayed_carry <;> simp <;> omega
  · norm_num; omega
  · cases s.ai_delayed_carry <;> simp <;> omega

theorem len_changed_region_witness :
    ∃ address length,
      issued carrySet (AiLenChanged carrySet) = [Call.AI_LenChanged firstDriver address length] ∧
      address = (carrySet.AudioInfo.AI_DRAM_ADDR_REG &&& 0x00FFFFF8) +
        (if carrySet.ai_delayed_carry then 0x2000 else 0) ∧
      length = carrySet.AudioInfo.AI_LEN_REG &&& 0x3FFF8 ∧
      address % 8 = 0 ∧ length % 8 = 0 ∧ length ≤ 0x3FFF8 ∧
      address ≤ 0x00FFFFF8 + 0x2000 ∧
      (carrySet.AudioInfo.AI_DRAM_ADDR_REG &&& 0x00FFFFF8) + 0x2000 < 2 ^ 32 ∧
      address + length < 2 ^ 32 :=
  len_changed_region carrySet firstDriver rfl

end AziAudio
